import Mathlib

/-!
# ShaderConductor wrapper (`Source/Wrapper/Native.cpp`)

A shallow embedding of the flat C interface of the ShaderConductor wrapper:
the `Compile` and `Disassemble` bridges, the Blob entry points and the
reflection accessors, followed by theorems about them.

Conventions of the embedding

* A pointer is a natural number, `0` being `nullptr`.  A non-null Blob or
  reflection pointer `p` designates slot `p - 1` of the corresponding store of
  the heap.
* A pointer parameter that the source only dereferences unconditionally
  (`source`, `optionsDesc`, `target`, the output `result` of the two bridges)
  is represented by its referent.  The `result` parameter of the reflection
  accessors, which `GetReflection` compares with `nullptr`, is an `Option`.
* A call is described by how it leaves (`Exit`) together with the contents of
  everything it may have written.
* Machine integers are `Int`/`Nat`; every conversion written in the source
  (`static_cast<uint8_t>`, `static_cast<uint32_t>`, `(int)`) is explicit.
-/

namespace ShaderConductor

/-! ## Machine-level basics -/

/-- A byte (`char`, `uint8_t`). -/
abbrev Byte := Nat

/-- A raw pointer; `0` is the null pointer. -/
abbrev Ptr := Nat

/-- The null pointer. -/
def nullptr : Ptr := 0

/-- The characters of the C string stored in a character array: everything
before the first NUL (the end of the array counts as the terminator). -/
def cstr (mem : List Byte) : List Byte :=
  mem.takeWhile (fun c => c ≠ 0)

/-- C library `strlen`: the number of characters before the first NUL. -/
def strlen (mem : List Byte) : Nat :=
  (cstr mem).length

/-- Conversion `static_cast<uint8_t>(v)` of an integer. -/
def toUInt8 (v : Int) : Int :=
  v % 256

/-- Conversion `static_cast<uint32_t>(n)` of a `size_t`. -/
def toUInt32 (n : Nat) : Nat :=
  n % 2 ^ 32

/-- Conversion `(int)n` of an unsigned value to a 32-bit two's complement
`int`. -/
def toInt (n : Nat) : Int :=
  if n % 2 ^ 32 < 2 ^ 31 then ((n % 2 ^ 32 : Nat) : Int) else ((n % 2 ^ 32 : Nat) : Int) - 2 ^ 32

/-- Conversion of an `int` argument to `size_t`/`rsize_t` (64 bit): a negative
value becomes a huge unsigned one. -/
def toSizeT (i : Int) : Nat :=
  if 0 ≤ i then i.toNat else (i + 2 ^ 64).toNat

/-- Element access `v[i]` of a `std::vector` with an `int` index: without a
value (undefined behaviour) outside `0 ≤ i < v.size()`. -/
def vectorAt {α : Type} (v : List α) (i : Int) : Option α :=
  if 0 ≤ i then v[i.toNat]? else none

/-- A caller-supplied character buffer, seen as the memory starting at the
pointer: offset to byte. -/
abbrev Buf := Nat → Byte

/-- The first `n` bytes of a buffer. -/
def Buf.firstBytes (b : Buf) (n : Nat) : List Byte :=
  (List.range n).map b

/-! ## Data model -/

/-- Modelled from the spec: the `Blob` class is declared in
`ShaderConductor.hpp`, which is not part of the sources; the spec describes it
as an opaque handle over a byte buffer with a size. -/
structure Blob where
  bytes : List Byte
deriving DecidableEq, Repr

/-- Modelled from the spec: `Blob::Size` (declared in `ShaderConductor.hpp`),
the size of the byte buffer. -/
def Blob.Size (b : Blob) : Nat :=
  b.bytes.length

/-- Modelled from the spec: `Blob::Data` (declared in `ShaderConductor.hpp`),
the byte buffer. -/
def Blob.Data (b : Blob) : List Byte :=
  b.bytes

namespace Compiler

/-- Modelled from the spec: `Compiler::StageInput` (declared in
`ShaderConductor.hpp`): name and bind location. -/
structure StageInput where
  name : List Byte
  location : Int
deriving DecidableEq, Repr

/-- Modelled from the spec: `Compiler::Parameter` (declared in
`ShaderConductor.hpp`): name, scalar type tag, rows, columns, byte offset,
array-dimension count and the array size per dimension. -/
structure Parameter where
  name : List Byte
  type : Int
  rows : Int
  columns : Int
  byteOffset : Int
  arrayDimensions : Int
  arraySize : List Int
deriving DecidableEq, Repr

/-- Modelled from the spec: `Compiler::UniformBuffer` (declared in
`ShaderConductor.hpp`): block name, instance name, byte size and the ordered
parameters. -/
structure UniformBuffer where
  blockName : List Byte
  instanceName : List Byte
  byteSize : Int
  parameters : List Parameter
deriving DecidableEq, Repr

/-- Modelled from the spec: `Compiler::Sampler` (declared in
`ShaderConductor.hpp`): name, original name, bound texture name, type, slot and
texture slot. -/
structure Sampler where
  name : List Byte
  originalName : List Byte
  textureName : List Byte
  type : Int
  slot : Int
  textureSlot : Int
deriving DecidableEq, Repr

/-- Modelled from the spec: `Compiler::ReflectionDesc` (declared in
`ShaderConductor.hpp`): the ordered stage inputs, uniform buffers and
samplers. -/
structure ReflectionDesc where
  stageInputs : List StageInput
  uniformBuffers : List UniformBuffer
  samplers : List Sampler
deriving DecidableEq, Repr

/-- Modelled from the spec: `Compiler::ShaderModel` (declared in
`ShaderConductor.hpp`); both fields are built with `static_cast<uint8_t>`. -/
structure ShaderModel where
  major : Int
  minor : Int
deriving DecidableEq, Repr

/-- Modelled from the spec: `Compiler::SourceDesc` (declared in
`ShaderConductor.hpp`), with the fields `Compile` assigns. -/
structure SourceDesc where
  entryPoint : List Byte
  source : List Byte
  stage : Int
  fileName : Ptr
  defines : Ptr
  numDefines : Int
deriving DecidableEq, Repr

/-- Modelled from the spec: `Compiler::Options` (declared in
`ShaderConductor.hpp`), with the fields `Compile` assigns. -/
structure Options where
  packMatricesInRowMajor : Bool
  enable16bitTypes : Bool
  enableDebugInfo : Bool
  disableOptimizations : Bool
  optimizationLevel : Int
  shaderModel : ShaderModel
  shiftAllTexturesBindings : Int
  shiftAllSamplersBindings : Int
  shiftAllCBuffersBindings : Int
  shiftAllUABuffersBindings : Int
deriving DecidableEq, Repr

/-- Modelled from the spec: `Compiler::TargetDesc` (declared in
`ShaderConductor.hpp`), with the fields `Compile` assigns. -/
structure TargetDesc where
  language : Int
  version : List Byte
deriving DecidableEq, Repr

/-- Modelled from the spec: `Compiler::DisassembleDesc` (declared in
`ShaderConductor.hpp`): language tag, binary buffer and its size. -/
structure DisassembleDesc where
  language : Int
  binary : List Byte
  binarySize : Int
deriving DecidableEq, Repr

/-- Modelled from the spec: `Compiler::ResultDesc` (declared in
`ShaderConductor.hpp`): the engine's result, with Blob pointers, flags and a
reflection pointer. -/
structure ResultDesc where
  errorWarningMsg : Ptr
  target : Ptr
  hasError : Bool
  isText : Bool
  reflection : Ptr
deriving DecidableEq, Repr

end Compiler

/-- Modelled from the spec: the version pair of `OptionsDescription` (declared
in `Native.h`, which is not part of the sources). -/
structure ShaderModelDescription where
  major : Int
  minor : Int
deriving DecidableEq, Repr

/-- Modelled from the spec: `SourceDescription` (declared in `Native.h`): entry
point name, source text and pipeline stage tag. -/
structure SourceDescription where
  entryPoint : List Byte
  source : List Byte
  stage : Int
deriving DecidableEq, Repr

/-- Modelled from the spec: `OptionsDescription` (declared in `Native.h`). -/
structure OptionsDescription where
  packMatricesInRowMajor : Bool
  enable16bitTypes : Bool
  enableDebugInfo : Bool
  disableOptimizations : Bool
  optimizationLevel : Int
  shaderModel : ShaderModelDescription
  shiftAllTexturesBindings : Int
  shiftAllSamplersBindings : Int
  shiftAllCBuffersBindings : Int
  shiftAllUABuffersBindings : Int
deriving DecidableEq, Repr

/-- Modelled from the spec: `TargetDescription` (declared in `Native.h`):
target shading language and version string. -/
structure TargetDescription where
  shadingLanguage : Int
  version : List Byte
deriving DecidableEq, Repr

/-- Modelled from the spec: `DisassembleDescription` (declared in `Native.h`):
language tag, binary buffer and its length. -/
structure DisassembleDescription where
  language : Int
  binary : List Byte
  binarySize : Int
deriving DecidableEq, Repr

/-- Modelled from the spec: `ResultDescription` (declared in `Native.h`): an
error/warning Blob handle, a target Blob handle, the error flag, the text flag
and an untyped reflection handle. -/
structure ResultDescription where
  errorWarningMsg : Ptr
  target : Ptr
  hasError : Bool
  isText : Bool
  reflection : Ptr
deriving DecidableEq, Repr

/-- The memory the pointers refer to: the Blob store and the store of
reflection results.  A non-null pointer `p` designates slot `p - 1`. -/
structure Heap where
  blobs : List Blob
  reflections : List Compiler.ReflectionDesc
deriving DecidableEq, Repr

/-- Dereference of a `Blob*`: without a value for the null pointer and for a
pointer that designates no Blob. -/
def Heap.blobAt (heap : Heap) (p : Ptr) : Option Blob :=
  if p = nullptr then none else heap.blobs[p - 1]?

/-- Dereference of a `Compiler::ReflectionDesc*`: without a value for the null
pointer and for a pointer that designates no reflection result. -/
def Heap.reflectionAt (heap : Heap) (p : Ptr) : Option Compiler.ReflectionDesc :=
  if p = nullptr then none else heap.reflections[p - 1]?

/-- A C++ exception in flight: one derived from `std::exception`, carrying the
character array `what()` points to, or any other thrown object. -/
inductive Exn where
  | std (what : List Byte)
  | other (tag : Nat)
deriving DecidableEq, Repr

/-- How an engine entry point leaves: with a value or with an exception; in
both cases with the heap as the engine left it. -/
inductive Outcome (α : Type) where
  | returned (value : α) (heap : Heap)
  | threw (e : Exn) (heap : Heap)

/-- Modelled from the spec: the compilation engine (`Compiler::Compile` and
`Compiler::Disassemble`, declared in `ShaderConductor.hpp`) is an external
collaborator; it is a parameter of the bridges. -/
structure Engine where
  Compile : Compiler.SourceDesc → Compiler.Options → Compiler.TargetDesc → Heap →
    Outcome Compiler.ResultDesc
  Disassemble : Compiler.DisassembleDesc → Heap → Outcome Compiler.ResultDesc

/-- How a call of the wrapper leaves: it returns, an exception propagates to
the caller, the runtime-constraint handler terminates the process, or the
behaviour is undefined (null or dangling dereference, index out of range). -/
inductive Exit where
  | returned
  | threw (e : Exn)
  | aborted
  | undefined
deriving DecidableEq, Repr

/-- The observable effect of a bridge call: how it left, the contents of the
output `ResultDescription` and the heap. -/
structure Call where
  exit : Exit
  result : ResultDescription
  heap : Heap

/-! ## Blob entry points -/

/-- Modelled from the spec: `ShaderConductor::CreateBlob` (defined outside the
sources) allocates a new Blob by copying `size` bytes starting at `data` and
returns its handle.  The handle is the next free slot of the Blob store, hence
non-null and distinct from every live handle.  Without a value (undefined
behaviour) when `size` is negative or exceeds the bytes readable at `data`. -/
def CreateBlob (heap : Heap) (data : List Byte) (size : Int) : Option (Ptr × Heap) :=
  if 0 ≤ size ∧ size.toNat ≤ data.length then
    some (heap.blobs.length + 1,
      { heap with blobs := heap.blobs ++ [{ bytes := data.take size.toNat }] })
  else none

/-- Source lines 105-108: `CreateShaderConductorBlob(data, size)` forwards to
`ShaderConductor::CreateBlob` and casts the handle. -/
def CreateShaderConductorBlob (heap : Heap) (data : List Byte) (size : Int) :
    Option (Ptr × Heap) :=
  CreateBlob heap data size

/-- Source lines 115-118: `GetShaderConductorBlobData(blob)` is
`reinterpret_cast<Blob*>(blob)->Data()`.  Returns the buffer and the heap
after the call; without a value when `blob` designates no Blob. -/
def GetShaderConductorBlobData (heap : Heap) (blob : Ptr) : Option (List Byte × Heap) :=
  (heap.blobAt blob).map (fun b => (b.Data, heap))

/-- Source lines 120-123: `GetShaderConductorBlobSize(blob)` is
`reinterpret_cast<Blob*>(blob)->Size()` returned as `int`.  Returns the size
and the heap after the call; without a value when `blob` designates no
Blob. -/
def GetShaderConductorBlobSize (heap : Heap) (blob : Ptr) : Option (Int × Heap) :=
  (heap.blobAt blob).map (fun b => (toInt b.Size, heap))

/-! ## Compile bridge -/

/-- Source lines 34-40 of `Compile`: the native source description. -/
def Compile.sourceDesc (source : SourceDescription) : Compiler.SourceDesc :=
  { entryPoint := source.entryPoint
    source := source.source
    stage := source.stage
    fileName := nullptr
    defines := nullptr
    numDefines := 0 }

/-- Source lines 42-52 of `Compile`: the native option set. -/
def Compile.options (optionsDesc : OptionsDescription) : Compiler.Options :=
  { packMatricesInRowMajor := optionsDesc.packMatricesInRowMajor
    enable16bitTypes := optionsDesc.enable16bitTypes
    enableDebugInfo := optionsDesc.enableDebugInfo
    disableOptimizations := optionsDesc.disableOptimizations
    optimizationLevel := optionsDesc.optimizationLevel
    shaderModel :=
      { major := toUInt8 optionsDesc.shaderModel.major
        minor := toUInt8 optionsDesc.shaderModel.minor }
    shiftAllTexturesBindings := optionsDesc.shiftAllTexturesBindings
    shiftAllSamplersBindings := optionsDesc.shiftAllSamplersBindings
    shiftAllCBuffersBindings := optionsDesc.shiftAllCBuffersBindings
    shiftAllUABuffersBindings := optionsDesc.shiftAllUABuffersBindings }

/-- Source lines 54-56 of `Compile`: the native target description. -/
def Compile.targetDesc (target : TargetDescription) : Compiler.TargetDesc :=
  { language := target.shadingLanguage
    version := target.version }

/-- Source lines 62-73 of `Compile`: the body of the `try` block after the
engine returned `translation`. -/
def Compile.store (translation : Compiler.ResultDesc) (result : ResultDescription) :
    ResultDescription :=
  let result :=
    if translation.errorWarningMsg ≠ nullptr then
      { result with errorWarningMsg := translation.errorWarningMsg }
    else result
  let result :=
    if translation.target ≠ nullptr then
      { result with target := translation.target }
    else result
  { result with
    hasError := translation.hasError
    isText := translation.isText
    reflection := translation.reflection }

/-- Source lines 58-80 of `Compile`: what the `try`/`catch` statement does with
the outcome of the engine call.  Only `std::exception` is caught; the length of
the message goes through `static_cast<uint32_t>` and then into the `int`
parameter of `CreateShaderConductorBlob`. -/
def Compile.handle (outcome : Outcome Compiler.ResultDesc) (result : ResultDescription) : Call :=
  match outcome with
  | .returned translation heap =>
    { exit := .returned, result := Compile.store translation result, heap := heap }
  | .threw (.std exception) heap =>
    match CreateShaderConductorBlob heap exception (toInt (toUInt32 (strlen exception))) with
    | some (blob, heap1) =>
      { exit := .returned
        result := { result with errorWarningMsg := blob, hasError := true }
        heap := heap1 }
    | none => { exit := .undefined, result := result, heap := heap }
  | .threw e heap => { exit := .threw e, result := result, heap := heap }

/-- Source lines 32-81: `Compile(source, optionsDesc, target, result)`. -/
def Compile (engine : Engine) (source : SourceDescription) (optionsDesc : OptionsDescription)
    (target : TargetDescription) (result : ResultDescription) (heap : Heap) : Call :=
  Compile.handle
    (engine.Compile (Compile.sourceDesc source) (Compile.options optionsDesc)
      (Compile.targetDesc target) heap)
    result

/-! ## Disassemble bridge -/

/-- Source lines 85-88 of `Disassemble`: the native disassembly request. -/
def Disassemble.disassembleSource (source : DisassembleDescription) :
    Compiler.DisassembleDesc :=
  { language := source.language
    binary := source.binary
    binarySize := source.binarySize }

/-- Source lines 92-102 of `Disassemble`: the stores into the output after the
engine returned `disassembleResult`. -/
def Disassemble.store (disassembleResult : Compiler.ResultDesc) (result : ResultDescription) :
    ResultDescription :=
  let result :=
    if disassembleResult.errorWarningMsg ≠ nullptr then
      { result with errorWarningMsg := disassembleResult.errorWarningMsg }
    else result
  let result :=
    if disassembleResult.target ≠ nullptr then
      { result with target := disassembleResult.target }
    else result
  { result with
    hasError := disassembleResult.hasError
    isText := disassembleResult.isText }

/-- Source lines 83-103: `Disassemble(source, result)`.  There is no `try`
block: an exception of the engine leaves the function before any store. -/
def Disassemble (engine : Engine) (source : DisassembleDescription) (result : ResultDescription)
    (heap : Heap) : Call :=
  match engine.Disassemble (Disassemble.disassembleSource source) heap with
  | .returned disassembleResult heap1 =>
    { exit := .returned, result := Disassemble.store disassembleResult result, heap := heap1 }
  | .threw e heap1 => { exit := .threw e, result := result, heap := heap1 }

/-! ## Reflection accessors -/

/-- The parts of the C runtime that the contract of `strcpy_s` leaves open:
the values of the bytes of the destination array that follow the terminator
(unspecified by C11 K.3.7.1.3; offset and old byte to new byte), and whether
the runtime-constraint handler terminates the process (the default of the
Microsoft runtime) or returns. -/
structure CRuntime where
  fill : Nat → Byte → Byte
  handlerAborts : Bool

/-- Library routine `strcpy_s(dest, destsz, src)` of the C runtime (C11 Annex K
K.3.7.1.3, Microsoft CRT); it is not part of the repository and is embedded
from its documented contract.  `src` is the character array of the source
string.  Returns the destination memory after the call and the error code:
with `destsz = 0` nothing is written (`EINVAL`); when the string and its
terminator fit, they are copied; otherwise `dest[0]` is set to NUL (`ERANGE`).
In both of the last two cases the remaining bytes below `destsz` take the
values the runtime leaves there, and no byte at or beyond `destsz` is
touched. -/
def strcpy_s (rt : CRuntime) (dest : Buf) (destsz : Nat) (src : List Byte) : Buf × Int :=
  if destsz = 0 then (dest, 22)
  else if strlen src < destsz then
    (fun i =>
      if i < strlen src then (cstr src).getD i 0
      else if i = strlen src then 0
      else if i < destsz then rt.fill i (dest i)
      else dest i, 0)
  else
    (fun i =>
      if i = 0 then 0
      else if i < destsz then rt.fill i (dest i)
      else dest i, 34)

/-- Whether a `strcpy_s` call with error code `err` ends the process: a
runtime-constraint violation with a terminating handler. -/
def CRuntime.stops (rt : CRuntime) (err : Int) : Bool :=
  err != 0 && rt.handlerAborts

/-- Source lines 125-128: `GetReflection(result)`. -/
def GetReflection (result : Option ResultDescription) : Ptr :=
  match result with
  | none => nullptr
  | some r => r.reflection

/-- Source lines 130-133: `GetStageInputCount(result)`.  Without a value when
the non-null reflection pointer designates no reflection result. -/
def GetStageInputCount (heap : Heap) (result : Option ResultDescription) : Option Int :=
  if GetReflection result = nullptr then some 0
  else (heap.reflectionAt (GetReflection result)).map (fun r => toInt r.stageInputs.length)

/-- Source lines 135-138: `GetUniformBufferCount(result)`. -/
def GetUniformBufferCount (heap : Heap) (result : Option ResultDescription) : Option Int :=
  if GetReflection result = nullptr then some 0
  else (heap.reflectionAt (GetReflection result)).map (fun r => toInt r.uniformBuffers.length)

/-- Source lines 140-143: `GetSamplerCount(result)`. -/
def GetSamplerCount (heap : Heap) (result : Option ResultDescription) : Option Int :=
  if GetReflection result = nullptr then some 0
  else (heap.reflectionAt (GetReflection result)).map (fun r => toInt r.samplers.length)

/-- The effect of `GetStageInput`: how it left and the contents of `name` and
`*location`. -/
structure StageInputOut where
  exit : Exit
  name : Buf
  location : Int

/-- Source lines 145-150: `GetStageInput(result, stageInputIndex, name,
maxNameLength, location)`; `name` and `location` are the contents of the
caller's objects before the call. -/
def GetStageInput (rt : CRuntime) (heap : Heap) (result : Option ResultDescription)
    (stageInputIndex : Int) (name : Buf) (maxNameLength : Int) (location : Int) :
    StageInputOut :=
  match heap.reflectionAt (GetReflection result) with
  | none => { exit := .undefined, name := name, location := location }
  | some refl =>
    match vectorAt refl.stageInputs stageInputIndex with
    | none => { exit := .undefined, name := name, location := location }
    | some si =>
      let c := strcpy_s rt name (toSizeT maxNameLength) si.name
      if rt.stops c.2 then { exit := .aborted, name := c.1, location := location }
      else { exit := .returned, name := c.1, location := si.location }

/-- The effect of `GetUniformBuffer`. -/
structure UniformBufferOut where
  exit : Exit
  blockName : Buf
  instanceName : Buf
  byteSize : Int
  parameterCount : Int

/-- Source lines 152-160: `GetUniformBuffer(result, bufferIndex, blockName,
instanceName, maxNameLength, byteSize, parameterCount)`. -/
def GetUniformBuffer (rt : CRuntime) (heap : Heap) (result : Option ResultDescription)
    (bufferIndex : Int) (blockName instanceName : Buf) (maxNameLength : Int)
    (byteSize parameterCount : Int) : UniformBufferOut :=
  match heap.reflectionAt (GetReflection result) with
  | none =>
    { exit := .undefined, blockName := blockName, instanceName := instanceName
      byteSize := byteSize, parameterCount := parameterCount }
  | some refl =>
    match vectorAt refl.uniformBuffers bufferIndex with
    | none =>
      { exit := .undefined, blockName := blockName, instanceName := instanceName
        byteSize := byteSize, parameterCount := parameterCount }
    | some ub =>
      let c1 := strcpy_s rt blockName (toSizeT maxNameLength) ub.blockName
      if rt.stops c1.2 then
        { exit := .aborted, blockName := c1.1, instanceName := instanceName
          byteSize := byteSize, parameterCount := parameterCount }
      else
        let c2 := strcpy_s rt instanceName (toSizeT maxNameLength) ub.instanceName
        if rt.stops c2.2 then
          { exit := .aborted, blockName := c1.1, instanceName := c2.1
            byteSize := byteSize, parameterCount := parameterCount }
        else
          { exit := .returned, blockName := c1.1, instanceName := c2.1
            byteSize := ub.byteSize, parameterCount := toInt ub.parameters.length }

/-- The effect of `GetParameter`. -/
structure ParameterOut where
  exit : Exit
  name : Buf
  type : Int
  rows : Int
  columns : Int
  byteOffset : Int
  arrayDimensions : Int

/-- Source lines 162-171: `GetParameter(result, bufferIndex, parameterIndex,
name, maxNameLength, type, rows, columns, byteOffset, arrayDimensions)`. -/
def GetParameter (rt : CRuntime) (heap : Heap) (result : Option ResultDescription)
    (bufferIndex parameterIndex : Int) (name : Buf) (maxNameLength : Int)
    (type rows columns byteOffset arrayDimensions : Int) : ParameterOut :=
  match heap.reflectionAt (GetReflection result) with
  | none =>
    { exit := .undefined, name := name, type := type, rows := rows, columns := columns
      byteOffset := byteOffset, arrayDimensions := arrayDimensions }
  | some refl =>
    match (vectorAt refl.uniformBuffers bufferIndex).bind
        (fun ub => vectorAt ub.parameters parameterIndex) with
    | none =>
      { exit := .undefined, name := name, type := type, rows := rows, columns := columns
        byteOffset := byteOffset, arrayDimensions := arrayDimensions }
    | some p =>
      let c := strcpy_s rt name (toSizeT maxNameLength) p.name
      if rt.stops c.2 then
        { exit := .aborted, name := c.1, type := type, rows := rows, columns := columns
          byteOffset := byteOffset, arrayDimensions := arrayDimensions }
      else
        { exit := .returned, name := c.1, type := p.type, rows := p.rows, columns := p.columns
          byteOffset := p.byteOffset, arrayDimensions := p.arrayDimensions }

/-- The effect of `GetParameterArraySize`. -/
structure ParameterArraySizeOut where
  exit : Exit
  arraySize : Int

/-- Source lines 173-177: `GetParameterArraySize(result, bufferIndex,
parameterIndex, dimension, arraySize)`. -/
def GetParameterArraySize (heap : Heap) (result : Option ResultDescription)
    (bufferIndex parameterIndex dimension : Int) (arraySize : Int) : ParameterArraySizeOut :=
  match heap.reflectionAt (GetReflection result) with
  | none => { exit := .undefined, arraySize := arraySize }
  | some refl =>
    match (vectorAt refl.uniformBuffers bufferIndex).bind
        (fun ub => vectorAt ub.parameters parameterIndex) with
    | none => { exit := .undefined, arraySize := arraySize }
    | some p =>
      match vectorAt p.arraySize dimension with
      | none => { exit := .undefined, arraySize := arraySize }
      | some n => { exit := .returned, arraySize := n }

/-- The effect of `GetSampler`. -/
structure SamplerOut where
  exit : Exit
  name : Buf
  originalName : Buf
  textureName : Buf
  type : Int
  slot : Int
  textureSlot : Int

/-- Source lines 179-188: `GetSampler(result, samplerIndex, name, originalName,
textureName, maxNameLength, type, slot, textureSlot)`. -/
def GetSampler (rt : CRuntime) (heap : Heap) (result : Option ResultDescription)
    (samplerIndex : Int) (name originalName textureName : Buf) (maxNameLength : Int)
    (type slot textureSlot : Int) : SamplerOut :=
  match heap.reflectionAt (GetReflection result) with
  | none =>
    { exit := .undefined, name := name, originalName := originalName
      textureName := textureName, type := type, slot := slot, textureSlot := textureSlot }
  | some refl =>
    match vectorAt refl.samplers samplerIndex with
    | none =>
      { exit := .undefined, name := name, originalName := originalName
        textureName := textureName, type := type, slot := slot, textureSlot := textureSlot }
    | some s =>
      let c1 := strcpy_s rt name (toSizeT maxNameLength) s.name
      if rt.stops c1.2 then
        { exit := .aborted, name := c1.1, originalName := originalName
          textureName := textureName, type := type, slot := slot, textureSlot := textureSlot }
      else
        let c2 := strcpy_s rt originalName (toSizeT maxNameLength) s.originalName
        if rt.stops c2.2 then
          { exit := .aborted, name := c1.1, originalName := c2.1
            textureName := textureName, type := type, slot := slot, textureSlot := textureSlot }
        else
          let c3 := strcpy_s rt textureName (toSizeT maxNameLength) s.textureName
          if rt.stops c3.2 then
            { exit := .aborted, name := c1.1, originalName := c2.1
              textureName := c3.1, type := type, slot := slot, textureSlot := textureSlot }
          else
            { exit := .returned, name := c1.1, originalName := c2.1
              textureName := c3.1, type := s.type, slot := s.slot, textureSlot := s.textureSlot }

/-! ## Sample data

Concrete inputs at which the theorems below are instantiated. -/

/-- A runtime that leaves the unspecified bytes as they were and whose
runtime-constraint handler returns. -/
def sampleRuntime : CRuntime :=
  { fill := fun _ b => b, handlerAborts := false }

/-- A runtime that fills the unspecified bytes with `0xFE` and whose
runtime-constraint handler terminates the process. -/
def abortingRuntime : CRuntime :=
  { fill := fun _ _ => 254, handlerAborts := true }

/-- A heap without Blobs and without reflection results. -/
def emptyHeap : Heap :=
  { blobs := [], reflections := [] }

/-- A zero-initialised output structure. -/
def zeroResult : ResultDescription :=
  { errorWarningMsg := 0, target := 0, hasError := false, isText := false, reflection := 0 }

/-- An output structure that still holds the handles of an earlier call. -/
def staleResult : ResultDescription :=
  { errorWarningMsg := 7, target := 8, hasError := false, isText := true, reflection := 9 }

/-- A source description: entry point "main", an empty source text, stage 0. -/
def sampleSource : SourceDescription :=
  { entryPoint := [109, 97, 105, 110], source := [], stage := 0 }

/-- An option set whose shader model 262.511 is outside the 8-bit range. -/
def sampleOptions : OptionsDescription :=
  { packMatricesInRowMajor := true, enable16bitTypes := false, enableDebugInfo := true
    disableOptimizations := false, optimizationLevel := 3
    shaderModel := { major := 262, minor := 511 }
    shiftAllTexturesBindings := 1, shiftAllSamplersBindings := 2
    shiftAllCBuffersBindings := 3, shiftAllUABuffersBindings := 4 }

/-- A target description: language 1, version "330". -/
def sampleTarget : TargetDescription :=
  { shadingLanguage := 1, version := [51, 51, 48] }

/-- A disassembly request over a four-byte binary. -/
def sampleDisassemble : DisassembleDescription :=
  { language := 2, binary := [3, 2, 35, 7], binarySize := 4 }

/-- An engine whose entry points raise a `std::exception` with the given
message array. -/
def throwingEngine (what : List Byte) : Engine :=
  { Compile := fun _ _ _ heap => .threw (.std what) heap
    Disassemble := fun _ heap => .threw (.std what) heap }

/-- An engine whose entry points return the given result. -/
def constantEngine (t : Compiler.ResultDesc) : Engine :=
  { Compile := fun _ _ _ heap => .returned t heap
    Disassemble := fun _ heap => .returned t heap }

/-- An engine result that reports an error without any message or target. -/
def silentFailure : Compiler.ResultDesc :=
  { errorWarningMsg := 0, target := 0, hasError := true, isText := false, reflection := 0 }

/-- An engine result of a successful run: no message, target Blob 5,
reflection 1. -/
def cleanSuccess : Compiler.ResultDesc :=
  { errorWarningMsg := 0, target := 5, hasError := false, isText := true, reflection := 1 }

/-- An engine result of a failed run with message Blob 3. -/
def reportedFailure : Compiler.ResultDesc :=
  { errorWarningMsg := 3, target := 0, hasError := true, isText := false, reflection := 0 }

/-- The message "oops". -/
def shortMessage : List Byte :=
  [111, 111, 112, 115]

/-- A message of 2^32 characters 'A'. -/
def longMessage : List Byte :=
  List.replicate 4294967296 65

/-- A uniform buffer "Globals"/"g" of 16 bytes with the parameters "scale"
and "tint". -/
def sampleBuffer : Compiler.UniformBuffer :=
  { blockName := [71, 108, 111, 98, 97, 108, 115], instanceName := [103], byteSize := 16
    parameters :=
      [ { name := [115, 99, 97, 108, 101], type := 1, rows := 1, columns := 1, byteOffset := 0
          arrayDimensions := 0, arraySize := [] },
        { name := [116, 105, 110, 116], type := 1, rows := 1, columns := 4, byteOffset := 16
          arrayDimensions := 1, arraySize := [2] } ] }

/-- The stage input "pos" at location 3 of `sampleReflection`. -/
def sampleStageInput : Compiler.StageInput :=
  { name := [112, 111, 115], location := 3 }

/-- The sampler "samp"/"s0"/"tex" of `sampleReflection`. -/
def sampleSampler : Compiler.Sampler :=
  { name := [115, 97, 109, 112], originalName := [115, 48], textureName := [116, 101, 120]
    type := 2, slot := 1, textureSlot := 0 }

/-- A reflection result with the stage input "pos" at location 3, the buffer
`sampleBuffer` and the sampler "samp"/"s0"/"tex". -/
def sampleReflection : Compiler.ReflectionDesc :=
  { stageInputs := [sampleStageInput]
    uniformBuffers := [sampleBuffer]
    samplers := [sampleSampler] }

/-- A heap whose only reflection result is `sampleReflection`. -/
def reflectionHeap : Heap :=
  { blobs := [], reflections := [sampleReflection] }

/-- A compile result that refers to the reflection result of
`reflectionHeap`. -/
def reflectionResult : ResultDescription :=
  { errorWarningMsg := 0, target := 0, hasError := false, isText := true, reflection := 1 }

/-- A reflection result with 2^31 (empty) uniform buffers. -/
def crowdedReflection : Compiler.ReflectionDesc :=
  { stageInputs := []
    uniformBuffers :=
      List.replicate 2147483648
        { blockName := [], instanceName := [], byteSize := 0, parameters := [] }
    samplers := [] }

/-- A heap whose only reflection result is `crowdedReflection`. -/
def crowdedHeap : Heap :=
  { blobs := [], reflections := [crowdedReflection] }

/-- A caller buffer filled with the byte `0xCC`. -/
def freshBuf : Buf :=
  fun _ => 204

/-! ## Helper lemmas -/

theorem toInt_of_lt {n : Nat} (h : n < 2 ^ 31) : toInt n = (n : Int) := by
  have h1 : n % 2 ^ 32 = n := Nat.mod_eq_of_lt (by omega)
  unfold toInt
  rw [h1, if_pos h]

theorem toInt_le_self (n : Nat) : toInt n ≤ (n : Int) := by
  unfold toInt
  have hm : n % 2 ^ 32 ≤ n := Nat.mod_le _ _
  split
  · omega
  · omega

theorem toSizeT_natCast (n : Nat) : toSizeT (n : Int) = n := by
  unfold toSizeT
  simp

theorem toSizeT_of_nonneg {i : Int} (h : 0 ≤ i) : toSizeT i = i.toNat := by
  unfold toSizeT
  rw [if_pos h]

theorem vectorAt_of_lt {α : Type} (v : List α) (i : Int) (h0 : 0 ≤ i) (h1 : i < (v.length : Int)) :
    ∃ x, vectorAt v i = some x ∧ v[i.toNat]? = some x := by
  have hlt : i.toNat < v.length := by omega
  refine ⟨v[i.toNat], ?_, ?_⟩
  · unfold vectorAt
    rw [if_pos h0]
    exact List.getElem?_eq_getElem hlt
  · exact List.getElem?_eq_getElem hlt

theorem take_strlen (mem : List Byte) : mem.take (strlen mem) = cstr mem := by
  unfold strlen cstr
  induction mem with
  | nil => rfl
  | cons a t ih =>
    by_cases h : a = 0
    · simp [List.takeWhile, h]
    · simp only [ne_eq, decide_not] at ih
      simp [List.takeWhile, h, ih]

theorem strlen_le_length (mem : List Byte) : strlen mem ≤ mem.length := by
  unfold strlen cstr
  induction mem with
  | nil => simp
  | cons a t ih =>
    by_cases h : a = 0
    · simp [List.takeWhile, h]
    · simp only [ne_eq, decide_not] at ih
      simp [List.takeWhile, h]
      omega

theorem strlen_replicate (n : Nat) (c : Byte) (hc : c ≠ 0) :
    strlen (List.replicate n c) = n := by
  unfold strlen cstr
  induction n with
  | zero => rfl
  | succ k ih => simp [List.replicate_succ, List.takeWhile, hc, ih]

theorem strcpy_s_frame (rt : CRuntime) (dest : Buf) (destsz : Nat) (src : List Byte)
    (i : Nat) (hi : destsz ≤ i) : (strcpy_s rt dest destsz src).1 i = dest i := by
  unfold strcpy_s
  by_cases h0 : destsz = 0
  · simp [h0]
  · by_cases hfit : strlen src < destsz
    · have h1 : ¬ i < strlen src := by omega
      have h2 : ¬ i = strlen src := by omega
      have h3 : ¬ i < destsz := by omega
      simp [h0, hfit, h1, h2, h3]
    · have h2 : ¬ i = 0 := by omega
      have h3 : ¬ i < destsz := by omega
      simp [h0, hfit, h2, h3]

theorem strcpy_s_fits (rt : CRuntime) (dest : Buf) (destsz : Nat) (src : List Byte)
    (hfit : strlen src < destsz) :
    (strcpy_s rt dest destsz src).2 = 0 ∧
      Buf.firstBytes (strcpy_s rt dest destsz src).1 (strlen src + 1) = cstr src ++ [0] := by
  have h0 : ¬ destsz = 0 := by omega
  unfold strcpy_s
  rw [if_neg h0, if_pos hfit]
  refine ⟨rfl, ?_⟩
  apply List.ext_getElem
  · simp [Buf.firstBytes, strlen]
  · intro n h1 h2
    simp only [Buf.firstBytes, List.length_map, List.length_range] at h1
    simp only [Buf.firstBytes, List.getElem_map, List.getElem_range]
    by_cases hn : n < strlen src
    · have hn' : n < (cstr src).length := hn
      simp [hn, List.getElem_append_left hn', List.getD_eq_getElem?_getD, List.getElem?_eq_getElem hn']
    · have hn2 : n = strlen src := by omega
      subst hn2
      simp [strlen]

theorem Compile_handle_of_wrapped_length (what : List Byte) (heap : Heap)
    (result : ResultDescription) (hwrap : toUInt32 (strlen what) = 0) :
    Compile.handle (Outcome.threw (Exn.std what) heap) result
      = { exit := .returned
          result := { result with errorWarningMsg := heap.blobs.length + 1, hasError := true }
          heap := { heap with blobs := heap.blobs ++ [{ bytes := [] }] } } := by
  have hcreate : CreateShaderConductorBlob heap what (toInt (toUInt32 (strlen what)))
      = some (heap.blobs.length + 1, { heap with blobs := heap.blobs ++ [{ bytes := [] }] }) := by
    rw [hwrap]
    simp [CreateShaderConductorBlob, CreateBlob, toInt]
  simp only [Compile.handle, hcreate]

theorem stops_zero (rt : CRuntime) : rt.stops 0 = false := by
  simp [CRuntime.stops]

theorem strcpy_s_fits_continues (rt : CRuntime) (dest : Buf) (destsz : Nat) (src : List Byte)
    (hfit : strlen src < destsz) : rt.stops (strcpy_s rt dest destsz src).2 = false := by
  rw [(strcpy_s_fits rt dest destsz src hfit).1]
  exact stops_zero rt

theorem stops_strcpy_s_eq (rt : CRuntime) (dest : Buf) (destsz : Nat) (src : List Byte) :
    rt.stops (strcpy_s rt dest destsz src).2
      = (!decide (strlen src < destsz) && rt.handlerAborts) := by
  unfold strcpy_s CRuntime.stops
  by_cases h0 : destsz = 0
  · simp [h0]
  · by_cases hfit : strlen src < destsz <;> simp [h0, hfit]

theorem GetStageInput_eq (rt : CRuntime) (heap : Heap) (result : Option ResultDescription)
    (refl : Compiler.ReflectionDesc) (stageInputIndex : Int) (si : Compiler.StageInput)
    (name : Buf) (maxNameLength location : Int)
    (hrefl : heap.reflectionAt (GetReflection result) = some refl)
    (hsi : vectorAt refl.stageInputs stageInputIndex = some si) :
    GetStageInput rt heap result stageInputIndex name maxNameLength location
      = if rt.stops (strcpy_s rt name (toSizeT maxNameLength) si.name).2 then
          { exit := .aborted, name := (strcpy_s rt name (toSizeT maxNameLength) si.name).1
            location := location }
        else
          { exit := .returned, name := (strcpy_s rt name (toSizeT maxNameLength) si.name).1
            location := si.location } := by
  unfold GetStageInput
  rw [hrefl]
  simp only [hsi]

theorem GetUniformBuffer_eq (rt : CRuntime) (heap : Heap) (result : Option ResultDescription)
    (refl : Compiler.ReflectionDesc) (bufferIndex : Int) (ub : Compiler.UniformBuffer)
    (blockName instanceName : Buf) (maxNameLength byteSize parameterCount : Int)
    (hrefl : heap.reflectionAt (GetReflection result) = some refl)
    (hub : vectorAt refl.uniformBuffers bufferIndex = some ub) :
    GetUniformBuffer rt heap result bufferIndex blockName instanceName maxNameLength byteSize
        parameterCount
      = if rt.stops (strcpy_s rt blockName (toSizeT maxNameLength) ub.blockName).2 then
          { exit := .aborted
            blockName := (strcpy_s rt blockName (toSizeT maxNameLength) ub.blockName).1
            instanceName := instanceName, byteSize := byteSize
            parameterCount := parameterCount }
        else if rt.stops
            (strcpy_s rt instanceName (toSizeT maxNameLength) ub.instanceName).2 then
          { exit := .aborted
            blockName := (strcpy_s rt blockName (toSizeT maxNameLength) ub.blockName).1
            instanceName :=
              (strcpy_s rt instanceName (toSizeT maxNameLength) ub.instanceName).1
            byteSize := byteSize, parameterCount := parameterCount }
        else
          { exit := .returned
            blockName := (strcpy_s rt blockName (toSizeT maxNameLength) ub.blockName).1
            instanceName :=
              (strcpy_s rt instanceName (toSizeT maxNameLength) ub.instanceName).1
            byteSize := ub.byteSize, parameterCount := toInt ub.parameters.length } := by
  unfold GetUniformBuffer
  rw [hrefl]
  simp only [hub]

theorem GetParameter_eq (rt : CRuntime) (heap : Heap) (result : Option ResultDescription)
    (refl : Compiler.ReflectionDesc) (bufferIndex parameterIndex : Int)
    (ub : Compiler.UniformBuffer) (p : Compiler.Parameter) (name : Buf)
    (maxNameLength type rows columns byteOffset arrayDimensions : Int)
    (hrefl : heap.reflectionAt (GetReflection result) = some refl)
    (hub : vectorAt refl.uniformBuffers bufferIndex = some ub)
    (hp : vectorAt ub.parameters parameterIndex = some p) :
    GetParameter rt heap result bufferIndex parameterIndex name maxNameLength type rows columns
        byteOffset arrayDimensions
      = if rt.stops (strcpy_s rt name (toSizeT maxNameLength) p.name).2 then
          { exit := .aborted, name := (strcpy_s rt name (toSizeT maxNameLength) p.name).1
            type := type, rows := rows, columns := columns, byteOffset := byteOffset
            arrayDimensions := arrayDimensions }
        else
          { exit := .returned, name := (strcpy_s rt name (toSizeT maxNameLength) p.name).1
            type := p.type, rows := p.rows, columns := p.columns, byteOffset := p.byteOffset
            arrayDimensions := p.arrayDimensions } := by
  unfold GetParameter
  rw [hrefl]
  simp only [hub, Option.bind, hp]

theorem GetSampler_eq (rt : CRuntime) (heap : Heap) (result : Option ResultDescription)
    (refl : Compiler.ReflectionDesc) (samplerIndex : Int) (s : Compiler.Sampler)
    (name originalName textureName : Buf) (maxNameLength type slot textureSlot : Int)
    (hrefl : heap.reflectionAt (GetReflection result) = some refl)
    (hs : vectorAt refl.samplers samplerIndex = some s) :
    GetSampler rt heap result samplerIndex name originalName textureName maxNameLength type slot
        textureSlot
      = if rt.stops (strcpy_s rt name (toSizeT maxNameLength) s.name).2 then
          { exit := .aborted, name := (strcpy_s rt name (toSizeT maxNameLength) s.name).1
            originalName := originalName, textureName := textureName, type := type
            slot := slot, textureSlot := textureSlot }
        else if rt.stops
            (strcpy_s rt originalName (toSizeT maxNameLength) s.originalName).2 then
          { exit := .aborted, name := (strcpy_s rt name (toSizeT maxNameLength) s.name).1
            originalName :=
              (strcpy_s rt originalName (toSizeT maxNameLength) s.originalName).1
            textureName := textureName, type := type, slot := slot
            textureSlot := textureSlot }
        else if rt.stops
            (strcpy_s rt textureName (toSizeT maxNameLength) s.textureName).2 then
          { exit := .aborted, name := (strcpy_s rt name (toSizeT maxNameLength) s.name).1
            originalName :=
              (strcpy_s rt originalName (toSizeT maxNameLength) s.originalName).1
            textureName := (strcpy_s rt textureName (toSizeT maxNameLength) s.textureName).1
            type := type, slot := slot, textureSlot := textureSlot }
        else
          { exit := .returned, name := (strcpy_s rt name (toSizeT maxNameLength) s.name).1
            originalName :=
              (strcpy_s rt originalName (toSizeT maxNameLength) s.originalName).1
            textureName := (strcpy_s rt textureName (toSizeT maxNameLength) s.textureName).1
            type := s.type, slot := s.slot, textureSlot := s.textureSlot } := by
  unfold GetSampler
  rw [hrefl]
  simp only [hs]

theorem reflection_ne_nullptr (heap : Heap) (p : Ptr) (refl : Compiler.ReflectionDesc)
    (h : heap.reflectionAt p = some refl) : p ≠ nullptr := by
  intro hp
  unfold Heap.reflectionAt at h
  rw [if_pos hp] at h
  exact Option.noConfusion h

theorem GetUniformBufferCount_eq (heap : Heap) (result : ResultDescription)
    (refl : Compiler.ReflectionDesc) (hrefl : heap.reflectionAt result.reflection = some refl) :
    GetUniformBufferCount heap (some result) = some (toInt refl.uniformBuffers.length) := by
  have hne : GetReflection (some result) ≠ nullptr :=
    reflection_ne_nullptr heap result.reflection refl hrefl
  unfold GetUniformBufferCount
  rw [if_neg hne]
  show Option.map _ (heap.reflectionAt result.reflection) = _
  rw [hrefl]
  rfl

theorem lt_length_of_lt_toInt {i : Int} {n : Nat} (h : i < toInt n) : i < (n : Int) :=
  lt_of_lt_of_le h (toInt_le_self n)

theorem toSizeT_gt_of_lt {n : Nat} {m : Int} (h : (n : Int) < m) : n < toSizeT m := by
  rw [toSizeT_of_nonneg (by omega)]
  omega

/-! ## Compile bridge: theorems -/

/-- C1 (as amended): when the engine's compile entry point raises a
`std::exception` whose message is shorter than 2^31 characters, `Compile`
returns normally, sets `hasError`, stores in `errorWarningMsg` the handle of a
newly created Blob (non-null, not live before, other Blobs untouched) whose
size is the length of the message and whose bytes are the message, and leaves
`target`, `reflection` and `isText` as they were. -/
theorem Compile_translates_exception (engine : Engine) (source : SourceDescription)
    (optionsDesc : OptionsDescription) (target : TargetDescription)
    (result : ResultDescription) (heap heap1 : Heap) (what : List Byte)
    (hthrow : engine.Compile (Compile.sourceDesc source) (Compile.options optionsDesc)
      (Compile.targetDesc target) heap = Outcome.threw (Exn.std what) heap1)
    (hlen : strlen what < 2 ^ 31) :
    (Compile engine source optionsDesc target result heap).exit = Exit.returned ∧
    (Compile engine source optionsDesc target result heap).result.hasError = true ∧
    (Compile engine source optionsDesc target result heap).result.errorWarningMsg ≠ nullptr ∧
    heap1.blobAt (Compile engine source optionsDesc target result heap).result.errorWarningMsg
      = none ∧
    (∀ p b, heap1.blobAt p = some b →
      (Compile engine source optionsDesc target result heap).heap.blobAt p = some b) ∧
    GetShaderConductorBlobSize (Compile engine source optionsDesc target result heap).heap
      (Compile engine source optionsDesc target result heap).result.errorWarningMsg
      = some (((strlen what : Nat) : Int),
          (Compile engine source optionsDesc target result heap).heap) ∧
    GetShaderConductorBlobData (Compile engine source optionsDesc target result heap).heap
      (Compile engine source optionsDesc target result heap).result.errorWarningMsg
      = some (cstr what, (Compile engine source optionsDesc target result heap).heap) ∧
    (Compile engine source optionsDesc target result heap).result.target = result.target ∧
    (Compile engine source optionsDesc target result heap).result.reflection
      = result.reflection ∧
    (Compile engine source optionsDesc target result heap).result.isText = result.isText := by
  have hsize : toInt (toUInt32 (strlen what)) = ((strlen what : Nat) : Int) := by
    have h1 : toUInt32 (strlen what) = strlen what := Nat.mod_eq_of_lt (by omega)
    rw [h1, toInt_of_lt hlen]
  have hle := strlen_le_length what
  have hcreate : CreateShaderConductorBlob heap1 what (toInt (toUInt32 (strlen what)))
      = some (heap1.blobs.length + 1,
          { heap1 with blobs := heap1.blobs ++ [{ bytes := cstr what }] }) := by
    rw [hsize]
    unfold CreateShaderConductorBlob CreateBlob
    rw [if_pos ⟨by omega, by simpa using hle⟩]
    simp [take_strlen]
  have hC : Compile engine source optionsDesc target result heap
      = { exit := .returned
          result := { result with errorWarningMsg := heap1.blobs.length + 1, hasError := true }
          heap := { heap1 with blobs := heap1.blobs ++ [{ bytes := cstr what }] } } := by
    unfold Compile
    rw [hthrow]
    simp only [Compile.handle, hcreate]
  rw [hC]
  refine ⟨rfl, rfl, by simp [nullptr], ?_, ?_, ?_, ?_, rfl, rfl, rfl⟩
  · simp [Heap.blobAt, nullptr]
  · intro p b hp
    unfold Heap.blobAt at hp ⊢
    by_cases h0 : p = nullptr
    · simp [h0] at hp
    · simp only [h0, if_false] at hp ⊢
      have hlt : p - 1 < heap1.blobs.length := by
        by_contra hcon
        rw [List.getElem?_eq_none (Nat.le_of_not_lt hcon)] at hp
        exact Option.noConfusion hp
      rw [List.getElem?_append_left hlt]
      exact hp
  · have hfit : toInt (cstr what).length = ((cstr what).length : Int) := toInt_of_lt hlen
    simp [GetShaderConductorBlobSize, Heap.blobAt, nullptr, Blob.Size, strlen, hfit]
  · simp [GetShaderConductorBlobData, Heap.blobAt, nullptr, Blob.Data]

/-- Witness of C1: the theorem applied to an engine that raises "oops",
starting from an output that holds stale handles. -/
theorem Compile_translates_exception_witness :
    strlen shortMessage < 2 ^ 31 ∧
    (Compile (throwingEngine shortMessage) sampleSource sampleOptions sampleTarget
      staleResult emptyHeap).result.hasError = true ∧
    GetShaderConductorBlobData
      (Compile (throwingEngine shortMessage) sampleSource sampleOptions sampleTarget
        staleResult emptyHeap).heap
      (Compile (throwingEngine shortMessage) sampleSource sampleOptions sampleTarget
        staleResult emptyHeap).result.errorWarningMsg
      = some (cstr shortMessage,
          (Compile (throwingEngine shortMessage) sampleSource sampleOptions sampleTarget
            staleResult emptyHeap).heap) :=
  ⟨by decide,
    (Compile_translates_exception (throwingEngine shortMessage) sampleSource sampleOptions
      sampleTarget staleResult emptyHeap emptyHeap shortMessage rfl (by decide)).2.1,
    (Compile_translates_exception (throwingEngine shortMessage) sampleSource sampleOptions
      sampleTarget staleResult emptyHeap emptyHeap shortMessage rfl
      (by decide)).2.2.2.2.2.2.1⟩

/-- C1 (counterexample): an engine exception whose message has 2^32 characters.
The length is narrowed by `static_cast<uint32_t>` to 0, so the Blob stored in
`errorWarningMsg` has size 0 and no bytes, not the size and bytes of the
message. -/
theorem Compile_long_message_counterexample :
    strlen longMessage = 4294967296 ∧
    (Compile (throwingEngine longMessage) sampleSource sampleOptions sampleTarget
      zeroResult emptyHeap).exit = Exit.returned ∧
    (GetShaderConductorBlobSize
      (Compile (throwingEngine longMessage) sampleSource sampleOptions sampleTarget
        zeroResult emptyHeap).heap
      (Compile (throwingEngine longMessage) sampleSource sampleOptions sampleTarget
        zeroResult emptyHeap).result.errorWarningMsg).map Prod.fst = some 0 ∧
    (GetShaderConductorBlobData
      (Compile (throwingEngine longMessage) sampleSource sampleOptions sampleTarget
        zeroResult emptyHeap).heap
      (Compile (throwingEngine longMessage) sampleSource sampleOptions sampleTarget
        zeroResult emptyHeap).result.errorWarningMsg).map Prod.fst = some [] := by
  have hlen : strlen longMessage = 4294967296 := strlen_replicate 4294967296 65 (by decide)
  have hwrap : toUInt32 (strlen longMessage) = 0 := by
    rw [hlen]
    norm_num [toUInt32]
  have hC : Compile (throwingEngine longMessage) sampleSource sampleOptions sampleTarget
      zeroResult emptyHeap
      = Compile.handle (Outcome.threw (Exn.std longMessage) emptyHeap) zeroResult := rfl
  rw [hC, Compile_handle_of_wrapped_length longMessage emptyHeap zeroResult hwrap]
  refine ⟨hlen, rfl, ?_, ?_⟩
  · simp [GetShaderConductorBlobSize, Heap.blobAt, nullptr, emptyHeap, Blob.Size, toInt]
  · simp [GetShaderConductorBlobData, Heap.blobAt, nullptr, emptyHeap, Blob.Data]

/-- C2 (as amended): when the engine's compile entry point returns `t`,
`Compile` returns normally; `errorWarningMsg` and `target` of the output equal
those of `t` when they are non-null and keep their prior value when they are
null; `hasError`, `isText` and `reflection` equal those of `t` (a null
reflection pointer included). -/
theorem Compile_stores_result (engine : Engine) (source : SourceDescription)
    (optionsDesc : OptionsDescription) (target : TargetDescription)
    (result : ResultDescription) (heap heap1 : Heap) (t : Compiler.ResultDesc)
    (hret : engine.Compile (Compile.sourceDesc source) (Compile.options optionsDesc)
      (Compile.targetDesc target) heap = Outcome.returned t heap1) :
    (Compile engine source optionsDesc target result heap).exit = Exit.returned ∧
    (Compile engine source optionsDesc target result heap).result.errorWarningMsg
      = (if t.errorWarningMsg ≠ nullptr then t.errorWarningMsg else result.errorWarningMsg) ∧
    (Compile engine source optionsDesc target result heap).result.target
      = (if t.target ≠ nullptr then t.target else result.target) ∧
    (Compile engine source optionsDesc target result heap).result.hasError = t.hasError ∧
    (Compile engine source optionsDesc target result heap).result.isText = t.isText ∧
    (Compile engine source optionsDesc target result heap).result.reflection = t.reflection ∧
    (Compile engine source optionsDesc target result heap).heap = heap1 := by
  have hC : Compile engine source optionsDesc target result heap
      = { exit := .returned, result := Compile.store t result, heap := heap1 } := by
    unfold Compile
    rw [hret]
    rfl
  rw [hC]
  refine ⟨rfl, ?_, ?_, rfl, rfl, rfl, rfl⟩
  · unfold Compile.store
    by_cases h1 : t.errorWarningMsg = nullptr <;> by_cases h2 : t.target = nullptr <;>
      simp [h1, h2]
  · unfold Compile.store
    by_cases h1 : t.errorWarningMsg = nullptr <;> by_cases h2 : t.target = nullptr <;>
      simp [h1, h2]

/-- Witness of C2: the theorem applied to an engine that returns a result with
a null message and a target, starting from an output with stale handles. -/
theorem Compile_stores_result_witness :
    (Compile (constantEngine cleanSuccess) sampleSource sampleOptions sampleTarget
      staleResult emptyHeap).result.errorWarningMsg
      = (if cleanSuccess.errorWarningMsg ≠ nullptr then cleanSuccess.errorWarningMsg
          else staleResult.errorWarningMsg) ∧
    (Compile (constantEngine cleanSuccess) sampleSource sampleOptions sampleTarget
      staleResult emptyHeap).result.reflection = cleanSuccess.reflection :=
  ⟨(Compile_stores_result (constantEngine cleanSuccess) sampleSource sampleOptions sampleTarget
      staleResult emptyHeap emptyHeap cleanSuccess rfl).2.1,
    (Compile_stores_result (constantEngine cleanSuccess) sampleSource sampleOptions sampleTarget
      staleResult emptyHeap emptyHeap cleanSuccess rfl).2.2.2.2.2.1⟩

/-- C2 (counterexample): the engine returns a result whose `errorWarningMsg`
is null while the output still holds handle 7; after `Compile` the output's
`errorWarningMsg` is 7, not the null pointer of the engine's result. -/
theorem Compile_null_pointer_counterexample :
    cleanSuccess.errorWarningMsg = nullptr ∧
    (Compile (constantEngine cleanSuccess) sampleSource sampleOptions sampleTarget
      staleResult emptyHeap).result.errorWarningMsg = 7 ∧
    (Compile (constantEngine cleanSuccess) sampleSource sampleOptions sampleTarget
      staleResult emptyHeap).result.errorWarningMsg ≠ cleanSuccess.errorWarningMsg := by
  refine ⟨rfl, rfl, ?_⟩
  decide

/-- C10: `Compile` hands the engine an option set built field by field: the
four flags, the optimisation level and the four binding shifts are those of
the `OptionsDescription`; shader-model major and minor are the supplied values
modulo 256, hence in 0..255 and equal to the supplied value when that lies in
0..255; and this option set is what the engine's compile entry point is called
with. -/
theorem Compile_options_narrowing (optionsDesc : OptionsDescription) :
    (Compile.options optionsDesc).packMatricesInRowMajor = optionsDesc.packMatricesInRowMajor ∧
    (Compile.options optionsDesc).enable16bitTypes = optionsDesc.enable16bitTypes ∧
    (Compile.options optionsDesc).enableDebugInfo = optionsDesc.enableDebugInfo ∧
    (Compile.options optionsDesc).disableOptimizations = optionsDesc.disableOptimizations ∧
    (Compile.options optionsDesc).optimizationLevel = optionsDesc.optimizationLevel ∧
    (Compile.options optionsDesc).shiftAllTexturesBindings
      = optionsDesc.shiftAllTexturesBindings ∧
    (Compile.options optionsDesc).shiftAllSamplersBindings
      = optionsDesc.shiftAllSamplersBindings ∧
    (Compile.options optionsDesc).shiftAllCBuffersBindings
      = optionsDesc.shiftAllCBuffersBindings ∧
    (Compile.options optionsDesc).shiftAllUABuffersBindings
      = optionsDesc.shiftAllUABuffersBindings ∧
    (Compile.options optionsDesc).shaderModel.major = optionsDesc.shaderModel.major % 256 ∧
    (Compile.options optionsDesc).shaderModel.minor = optionsDesc.shaderModel.minor % 256 ∧
    (0 ≤ (Compile.options optionsDesc).shaderModel.major ∧
      (Compile.options optionsDesc).shaderModel.major ≤ 255) ∧
    (0 ≤ (Compile.options optionsDesc).shaderModel.minor ∧
      (Compile.options optionsDesc).shaderModel.minor ≤ 255) ∧
    (0 ≤ optionsDesc.shaderModel.major ∧ optionsDesc.shaderModel.major ≤ 255 →
      (Compile.options optionsDesc).shaderModel.major = optionsDesc.shaderModel.major) ∧
    (0 ≤ optionsDesc.shaderModel.minor ∧ optionsDesc.shaderModel.minor ≤ 255 →
      (Compile.options optionsDesc).shaderModel.minor = optionsDesc.shaderModel.minor) ∧
    (∀ (engine : Engine) (source : SourceDescription) (target : TargetDescription)
        (result : ResultDescription) (heap : Heap),
      Compile engine source optionsDesc target result heap
        = Compile.handle
            (engine.Compile (Compile.sourceDesc source) (Compile.options optionsDesc)
              (Compile.targetDesc target) heap)
            result) := by
  refine ⟨rfl, rfl, rfl, rfl, rfl, rfl, rfl, rfl, rfl, rfl, rfl, ?_, ?_, ?_, ?_, ?_⟩
  · simp only [Compile.options, toUInt8]
    omega
  · simp only [Compile.options, toUInt8]
    omega
  · intro h
    simp only [Compile.options, toUInt8]
    omega
  · intro h
    simp only [Compile.options, toUInt8]
    omega
  · intro engine source target result heap
    rfl

/-- Witness of C10: the option set with shader model 262.511 reaches the
engine as 6.255, and one with shader model 6.255 reaches it unchanged. -/
theorem Compile_options_narrowing_witness :
    (Compile.options sampleOptions).shaderModel.major = 262 % 256 ∧
    (Compile.options sampleOptions).shaderModel.minor = 511 % 256 ∧
    (Compile.options { sampleOptions with shaderModel := { major := 6, minor := 255 } }).shaderModel.major
      = 6 :=
  ⟨(Compile_options_narrowing sampleOptions).2.2.2.2.2.2.2.2.2.1,
    (Compile_options_narrowing sampleOptions).2.2.2.2.2.2.2.2.2.2.1,
    (Compile_options_narrowing
      { sampleOptions with shaderModel := { major := 6, minor := 255 } }).2.2.2.2.2.2.2.2.2.2.2.2.2.1
      ⟨by decide, by decide⟩⟩

/-! ## Disassemble bridge: theorems -/

/-- C7 (as amended): `Disassemble` calls the engine with the language tag, the
binary buffer and the binary size of the request unchanged; when the engine
returns `d`, the call returns, `errorWarningMsg` and `target` of the output
equal those of `d` when they are non-null and keep their prior value when they
are null, `hasError` and `isText` equal those of `d`, and `reflection` is
unchanged. -/
theorem Disassemble_stores_result (engine : Engine) (source : DisassembleDescription)
    (result : ResultDescription) (heap heap1 : Heap) (d : Compiler.ResultDesc)
    (hret : engine.Disassemble (Disassemble.disassembleSource source) heap
      = Outcome.returned d heap1) :
    (Disassemble.disassembleSource source).language = source.language ∧
    (Disassemble.disassembleSource source).binary = source.binary ∧
    (Disassemble.disassembleSource source).binarySize = source.binarySize ∧
    (Disassemble engine source result heap).exit = Exit.returned ∧
    (Disassemble engine source result heap).result.errorWarningMsg
      = (if d.errorWarningMsg ≠ nullptr then d.errorWarningMsg else result.errorWarningMsg) ∧
    (Disassemble engine source result heap).result.target
      = (if d.target ≠ nullptr then d.target else result.target) ∧
    (Disassemble engine source result heap).result.hasError = d.hasError ∧
    (Disassemble engine source result heap).result.isText = d.isText ∧
    (Disassemble engine source result heap).result.reflection = result.reflection ∧
    (Disassemble engine source result heap).heap = heap1 := by
  have hD : Disassemble engine source result heap
      = { exit := .returned, result := Disassemble.store d result, heap := heap1 } := by
    unfold Disassemble
    rw [hret]
  rw [hD]
  refine ⟨rfl, rfl, rfl, rfl, ?_, ?_, rfl, rfl, ?_, rfl⟩
  · unfold Disassemble.store
    by_cases h1 : d.errorWarningMsg = nullptr <;> by_cases h2 : d.target = nullptr <;>
      simp [h1, h2]
  · unfold Disassemble.store
    by_cases h1 : d.errorWarningMsg = nullptr <;> by_cases h2 : d.target = nullptr <;>
      simp [h1, h2]
  · unfold Disassemble.store
    by_cases h1 : d.errorWarningMsg = nullptr <;> by_cases h2 : d.target = nullptr <;>
      simp [h1, h2]

/-- Witness of C7: the theorem applied to an engine that returns a result with
a null message, starting from an output with stale handles. -/
theorem Disassemble_stores_result_witness :
    (Disassemble (constantEngine cleanSuccess) sampleDisassemble staleResult
      emptyHeap).result.target
      = (if cleanSuccess.target ≠ nullptr then cleanSuccess.target else staleResult.target) ∧
    (Disassemble (constantEngine cleanSuccess) sampleDisassemble staleResult
      emptyHeap).result.reflection = staleResult.reflection :=
  ⟨(Disassemble_stores_result (constantEngine cleanSuccess) sampleDisassemble staleResult
      emptyHeap emptyHeap cleanSuccess rfl).2.2.2.2.2.1,
    (Disassemble_stores_result (constantEngine cleanSuccess) sampleDisassemble staleResult
      emptyHeap emptyHeap cleanSuccess rfl).2.2.2.2.2.2.2.2.1⟩

/-- C7 (counterexample): the engine returns a result whose `errorWarningMsg`
is null while the output still holds handle 7; after `Disassemble` the output's
`errorWarningMsg` is 7, not the null pointer of the engine's result. -/
theorem Disassemble_null_pointer_counterexample :
    cleanSuccess.errorWarningMsg = nullptr ∧
    (Disassemble (constantEngine cleanSuccess) sampleDisassemble staleResult
      emptyHeap).result.errorWarningMsg = 7 ∧
    (Disassemble (constantEngine cleanSuccess) sampleDisassemble staleResult
      emptyHeap).result.errorWarningMsg ≠ cleanSuccess.errorWarningMsg := by
  refine ⟨rfl, rfl, ?_⟩
  decide

/-- C8: when the engine's disassemble entry point raises an exception,
`Disassemble` leaves with that same exception, the output is exactly as it was
(no error flag set, no message Blob stored), and the heap is as the engine left
it (no Blob created); whereas `Compile` never lets a `std::exception` of the
engine reach its caller. -/
theorem Disassemble_propagates_exception (engine : Engine) (source : DisassembleDescription)
    (result : ResultDescription) (heap heap1 : Heap) (e : Exn)
    (hthrow : engine.Disassemble (Disassemble.disassembleSource source) heap
      = Outcome.threw e heap1) :
    (Disassemble engine source result heap).exit = Exit.threw e ∧
    (Disassemble engine source result heap).result = result ∧
    (Disassemble engine source result heap).heap = heap1 ∧
    (∀ (csource : SourceDescription) (optionsDesc : OptionsDescription)
        (target : TargetDescription) (cresult : ResultDescription) (cheap cheap1 : Heap)
        (what : List Byte),
      engine.Compile (Compile.sourceDesc csource) (Compile.options optionsDesc)
          (Compile.targetDesc target) cheap = Outcome.threw (Exn.std what) cheap1 →
      ∀ e1, (Compile engine csource optionsDesc target cresult cheap).exit ≠ Exit.threw e1) := by
  have hD : Disassemble engine source result heap
      = { exit := .threw e, result := result, heap := heap1 } := by
    unfold Disassemble
    rw [hthrow]
  rw [hD]
  refine ⟨rfl, rfl, rfl, ?_⟩
  intro csource optionsDesc target cresult cheap cheap1 what hc e1
  unfold Compile
  rw [hc]
  simp only [Compile.handle]
  cases hb : CreateShaderConductorBlob cheap1 what (toInt (toUInt32 (strlen what))) with
  | none => simp
  | some pr => simp

/-- Witness of C8: the theorem applied to an engine that raises "oops". -/
theorem Disassemble_propagates_exception_witness :
    (Disassemble (throwingEngine shortMessage) sampleDisassemble staleResult emptyHeap).exit
      = Exit.threw (Exn.std shortMessage) ∧
    (Disassemble (throwingEngine shortMessage) sampleDisassemble staleResult emptyHeap).result
      = staleResult ∧
    (∀ e1, (Compile (throwingEngine shortMessage) sampleSource sampleOptions sampleTarget
      staleResult emptyHeap).exit ≠ Exit.threw e1) :=
  ⟨(Disassemble_propagates_exception (throwingEngine shortMessage) sampleDisassemble staleResult
      emptyHeap emptyHeap (Exn.std shortMessage) rfl).1,
    (Disassemble_propagates_exception (throwingEngine shortMessage) sampleDisassemble staleResult
      emptyHeap emptyHeap (Exn.std shortMessage) rfl).2.1,
    (Disassemble_propagates_exception (throwingEngine shortMessage) sampleDisassemble staleResult
      emptyHeap emptyHeap (Exn.std shortMessage) rfl).2.2.2 sampleSource sampleOptions
      sampleTarget staleResult emptyHeap emptyHeap shortMessage rfl⟩

/-! ## Error flag and message handle -/

/-- C3 (as amended): after a call of `Compile` or `Disassemble` that returned
with `hasError` set, the `errorWarningMsg` handle is non-null provided that,
if the engine returned a result, that result carried a non-null message handle
or the output held a non-null handle before the call.  (When `Compile` caught
an exception of the engine the handle is that of the Blob it created.) -/
theorem hasError_message_nonnull (engine : Engine) (source : SourceDescription)
    (optionsDesc : OptionsDescription) (target : TargetDescription)
    (dsource : DisassembleDescription) (result : ResultDescription) (heap : Heap) :
    ((Compile engine source optionsDesc target result heap).exit = Exit.returned →
      (Compile engine source optionsDesc target result heap).result.hasError = true →
      (∀ t heap1,
        engine.Compile (Compile.sourceDesc source) (Compile.options optionsDesc)
          (Compile.targetDesc target) heap = Outcome.returned t heap1 →
        t.errorWarningMsg ≠ nullptr ∨ result.errorWarningMsg ≠ nullptr) →
      (Compile engine source optionsDesc target result heap).result.errorWarningMsg ≠ nullptr) ∧
    ((Disassemble engine dsource result heap).exit = Exit.returned →
      (Disassemble engine dsource result heap).result.hasError = true →
      (∀ d heap1,
        engine.Disassemble (Disassemble.disassembleSource dsource) heap
          = Outcome.returned d heap1 →
        d.errorWarningMsg ≠ nullptr ∨ result.errorWarningMsg ≠ nullptr) →
      (Disassemble engine dsource result heap).result.errorWarningMsg ≠ nullptr) := by
  constructor
  · unfold Compile
    cases hout : engine.Compile (Compile.sourceDesc source) (Compile.options optionsDesc)
        (Compile.targetDesc target) heap with
    | returned t heap1 =>
      intro _ _ hmsg
      simp only [Compile.handle, Compile.store]
      by_cases h1 : t.errorWarningMsg = nullptr
      · have h2 : result.errorWarningMsg ≠ nullptr := by
          rcases hmsg t heap1 rfl with h | h
          · exact absurd h1 h
          · exact h
        by_cases h3 : t.target = nullptr <;> simp [h1, h2, h3]
      · by_cases h3 : t.target = nullptr <;> simp [h1, h3]
    | threw e heap1 =>
      cases e with
      | std what =>
        intro hexit _ _
        simp only [Compile.handle] at hexit ⊢
        unfold CreateShaderConductorBlob CreateBlob at hexit ⊢
        by_cases hsz : 0 ≤ toInt (toUInt32 (strlen what)) ∧
            (toInt (toUInt32 (strlen what))).toNat ≤ what.length
        · rw [if_pos hsz]
          simp [nullptr]
        · rw [if_neg hsz] at hexit
          simp at hexit
      | other tag =>
        intro hexit _ _
        simp [Compile.handle] at hexit
  · unfold Disassemble
    cases hout : engine.Disassemble (Disassemble.disassembleSource dsource) heap with
    | returned d heap1 =>
      intro _ _ hmsg
      simp only [Disassemble.store]
      by_cases h1 : d.errorWarningMsg = nullptr
      · have h2 : result.errorWarningMsg ≠ nullptr := by
          rcases hmsg d heap1 rfl with h | h
          · exact absurd h1 h
          · exact h
        by_cases h3 : d.target = nullptr <;> simp [h1, h2, h3]
      · by_cases h3 : d.target = nullptr <;> simp [h1, h3]
    | threw e heap1 =>
      intro hexit _ _
      simp at hexit

/-- Witness of C3: an engine that reports a failure with message Blob 3, a
zero-initialised output. -/
theorem hasError_message_nonnull_witness :
    (Compile (constantEngine reportedFailure) sampleSource sampleOptions sampleTarget
      zeroResult emptyHeap).result.hasError = true ∧
    (Compile (constantEngine reportedFailure) sampleSource sampleOptions sampleTarget
      zeroResult emptyHeap).result.errorWarningMsg ≠ nullptr ∧
    (Disassemble (constantEngine reportedFailure) sampleDisassemble zeroResult
      emptyHeap).result.errorWarningMsg ≠ nullptr :=
  ⟨rfl,
    (hasError_message_nonnull (constantEngine reportedFailure) sampleSource sampleOptions
      sampleTarget sampleDisassemble zeroResult emptyHeap).1 rfl rfl
      (fun t heap1 h => by
        have ht : reportedFailure = t := (Outcome.returned.inj h).1
        subst ht
        exact Or.inl (by decide)),
    (hasError_message_nonnull (constantEngine reportedFailure) sampleSource sampleOptions
      sampleTarget sampleDisassemble zeroResult emptyHeap).2 rfl rfl
      (fun d heap1 h => by
        have hd : reportedFailure = d := (Outcome.returned.inj h).1
        subst hd
        exact Or.inl (by decide))⟩

/-- C3 (counterexample): the engine returns a result with `hasError` set and a
null message handle, the output is zero-initialised; after `Compile`, and after
`Disassemble`, `hasError` is true and `errorWarningMsg` is null. -/
theorem hasError_null_message_counterexample :
    ((Compile (constantEngine silentFailure) sampleSource sampleOptions sampleTarget
        zeroResult emptyHeap).exit = Exit.returned ∧
      (Compile (constantEngine silentFailure) sampleSource sampleOptions sampleTarget
        zeroResult emptyHeap).result.hasError = true ∧
      (Compile (constantEngine silentFailure) sampleSource sampleOptions sampleTarget
        zeroResult emptyHeap).result.errorWarningMsg = nullptr) ∧
    ((Disassemble (constantEngine silentFailure) sampleDisassemble zeroResult
        emptyHeap).exit = Exit.returned ∧
      (Disassemble (constantEngine silentFailure) sampleDisassemble zeroResult
        emptyHeap).result.hasError = true ∧
      (Disassemble (constantEngine silentFailure) sampleDisassemble zeroResult
        emptyHeap).result.errorWarningMsg = nullptr) :=
  ⟨⟨rfl, rfl, rfl⟩, ⟨rfl, rfl, rfl⟩⟩

/-! ## Blob entry points: theorems -/

/-- C6: Blob round trip.  For every byte sequence `data` and every `int` value
`n` with `0 ≤ n ≤ length data`, `CreateShaderConductorBlob(data, n)` yields a
non-null handle for which `GetShaderConductorBlobSize` returns `n` and
`GetShaderConductorBlobData` returns the first `n` bytes of `data`; both
accessors leave the heap, and so the Blob, as it was. -/
theorem Blob_round_trip (heap : Heap) (data : List Byte) (n : Nat)
    (hn : n ≤ data.length) (hint : n < 2 ^ 31) :
    ∃ blob heap1,
      CreateShaderConductorBlob heap data (n : Int) = some (blob, heap1) ∧
      blob ≠ nullptr ∧
      GetShaderConductorBlobSize heap1 blob = some ((n : Int), heap1) ∧
      GetShaderConductorBlobData heap1 blob = some (data.take n, heap1) ∧
      (GetShaderConductorBlobSize heap1 blob).bind
        (fun r => GetShaderConductorBlobData r.2 blob) = some (data.take n, heap1) := by
  refine ⟨heap.blobs.length + 1,
    { heap with blobs := heap.blobs ++ [{ bytes := data.take n }] }, ?_, ?_, ?_, ?_, ?_⟩
  · unfold CreateShaderConductorBlob CreateBlob
    rw [if_pos ⟨by omega, by simpa using hn⟩]
    simp
  · simp [nullptr]
  · have hsz : toInt (min n data.length) = (n : Int) := by
      rw [Nat.min_eq_left hn]
      exact toInt_of_lt hint
    simp [GetShaderConductorBlobSize, Heap.blobAt, nullptr, Blob.Size, hsz]
  · simp [GetShaderConductorBlobData, Heap.blobAt, nullptr, Blob.Data]
  · simp [GetShaderConductorBlobSize, GetShaderConductorBlobData, Heap.blobAt, nullptr,
      Blob.Data]

/-- Witness of C6: a Blob made of the first 3 bytes of a 4-byte sequence. -/
theorem Blob_round_trip_witness :
    ∃ blob heap1,
      CreateShaderConductorBlob emptyHeap shortMessage ((3 : Nat) : Int) = some (blob, heap1) ∧
      blob ≠ nullptr ∧
      GetShaderConductorBlobSize heap1 blob = some (((3 : Nat) : Int), heap1) ∧
      GetShaderConductorBlobData heap1 blob = some (shortMessage.take 3, heap1) ∧
      (GetShaderConductorBlobSize heap1 blob).bind
        (fun r => GetShaderConductorBlobData r.2 blob) = some (shortMessage.take 3, heap1) :=
  Blob_round_trip emptyHeap shortMessage 3 (by decide) (by decide)

/-! ## Reflection accessors: theorems -/

/-- C4 (as amended): given a null `ResultDescription`, the three count queries
return 0.  The indexed queries `GetStageInput`, `GetUniformBuffer`,
`GetParameter`, `GetParameterArraySize` and `GetSampler` do not test for null:
for every index they dereference the null reflection pointer, which is
undefined behaviour, and store nothing. -/
theorem null_result_queries (rt : CRuntime) (heap : Heap) :
    GetStageInputCount heap none = some 0 ∧
    GetUniformBufferCount heap none = some 0 ∧
    GetSamplerCount heap none = some 0 ∧
    (∀ (stageInputIndex : Int) (name : Buf) (maxNameLength location : Int),
      GetStageInput rt heap none stageInputIndex name maxNameLength location
        = { exit := .undefined, name := name, location := location }) ∧
    (∀ (bufferIndex : Int) (blockName instanceName : Buf)
        (maxNameLength byteSize parameterCount : Int),
      GetUniformBuffer rt heap none bufferIndex blockName instanceName maxNameLength byteSize
          parameterCount
        = { exit := .undefined, blockName := blockName, instanceName := instanceName
            byteSize := byteSize, parameterCount := parameterCount }) ∧
    (∀ (bufferIndex parameterIndex : Int) (name : Buf)
        (maxNameLength type rows columns byteOffset arrayDimensions : Int),
      GetParameter rt heap none bufferIndex parameterIndex name maxNameLength type rows columns
          byteOffset arrayDimensions
        = { exit := .undefined, name := name, type := type, rows := rows, columns := columns
            byteOffset := byteOffset, arrayDimensions := arrayDimensions }) ∧
    (∀ (bufferIndex parameterIndex dimension arraySize : Int),
      GetParameterArraySize heap none bufferIndex parameterIndex dimension arraySize
        = { exit := .undefined, arraySize := arraySize }) ∧
    (∀ (samplerIndex : Int) (name originalName textureName : Buf)
        (maxNameLength type slot textureSlot : Int),
      GetSampler rt heap none samplerIndex name originalName textureName maxNameLength type slot
          textureSlot
        = { exit := .undefined, name := name, originalName := originalName
            textureName := textureName, type := type, slot := slot
            textureSlot := textureSlot }) := by
  refine ⟨rfl, rfl, rfl, ?_, ?_, ?_, ?_, ?_⟩
  · intros
    rfl
  · intros
    rfl
  · intros
    rfl
  · intros
    rfl
  · intros
    rfl

/-- C4 (counterexample): on a null `ResultDescription` the indexed queries do
not complete with empty results: with index 0 each of them ends in the
undefined behaviour of dereferencing the null reflection pointer. -/
theorem null_result_indexed_counterexample :
    (GetStageInput sampleRuntime emptyHeap none 0 freshBuf 16 0).exit = Exit.undefined ∧
    (GetUniformBuffer sampleRuntime emptyHeap none 0 freshBuf freshBuf 16 0 0).exit
      = Exit.undefined ∧
    (GetParameter sampleRuntime emptyHeap none 0 0 freshBuf 16 0 0 0 0 0).exit
      = Exit.undefined ∧
    (GetParameterArraySize emptyHeap none 0 0 0 0).exit = Exit.undefined ∧
    (GetSampler sampleRuntime emptyHeap none 0 freshBuf freshBuf freshBuf 16 0 0 0).exit
      = Exit.undefined ∧
    (GetStageInput sampleRuntime emptyHeap none 0 freshBuf 16 0).exit ≠ Exit.returned :=
  ⟨rfl, rfl, rfl, rfl, rfl, by decide⟩

/-- C5 (as amended): for each name-copy accessor (`GetStageInput`,
`GetUniformBuffer`, `GetParameter`, `GetSampler`), every in-range index (the
element access succeeds) and every non-negative `maxNameLength`: no byte of a
caller-supplied name buffer at offset `maxNameLength` or beyond is changed,
also when the name with its terminator is longer than `maxNameLength`; the
call returns exactly when every name with its terminator fits or the
runtime-constraint handler returns; and when a name (as a C string) with its
terminator fits within `maxNameLength`, its buffer receives exactly the name
followed by the terminator, provided the call reaches that copy: every name
copied before it fits as well, or the runtime-constraint handler returns. -/
theorem name_copies_bounded (rt : CRuntime) (heap : Heap) (result : Option ResultDescription)
    (refl : Compiler.ReflectionDesc) (maxNameLength : Int)
    (hrefl : heap.reflectionAt (GetReflection result) = some refl)
    (hmax : 0 ≤ maxNameLength) :
    (∀ (stageInputIndex : Int) (si : Compiler.StageInput) (name : Buf) (location : Int),
      vectorAt refl.stageInputs stageInputIndex = some si →
      (∀ i : Nat, maxNameLength ≤ (i : Int) →
        (GetStageInput rt heap result stageInputIndex name maxNameLength location).name i = name i) ∧
      ((GetStageInput rt heap result stageInputIndex name maxNameLength location).exit = Exit.returned ↔
        (rt.handlerAborts = false ∨ (strlen si.name : Int) < maxNameLength)) ∧
      ((strlen si.name : Int) < maxNameLength →
        Buf.firstBytes (GetStageInput rt heap result stageInputIndex name maxNameLength location).name
          (strlen si.name + 1) = cstr si.name ++ [0])) ∧
    (∀ (bufferIndex : Int) (ub : Compiler.UniformBuffer) (blockName instanceName : Buf)
        (byteSize parameterCount : Int),
      vectorAt refl.uniformBuffers bufferIndex = some ub →
      (∀ i : Nat, maxNameLength ≤ (i : Int) →
        (GetUniformBuffer rt heap result bufferIndex blockName instanceName maxNameLength
          byteSize parameterCount).blockName i = blockName i ∧
        (GetUniformBuffer rt heap result bufferIndex blockName instanceName maxNameLength
          byteSize parameterCount).instanceName i = instanceName i) ∧
      ((GetUniformBuffer rt heap result bufferIndex blockName instanceName maxNameLength
          byteSize parameterCount).exit = Exit.returned ↔
        (rt.handlerAborts = false ∨
          ((strlen ub.blockName : Int) < maxNameLength ∧ (strlen ub.instanceName : Int) < maxNameLength))) ∧
      ((strlen ub.blockName : Int) < maxNameLength →
        Buf.firstBytes (GetUniformBuffer rt heap result bufferIndex blockName instanceName maxNameLength
          byteSize parameterCount).blockName
          (strlen ub.blockName + 1) = cstr ub.blockName ++ [0]) ∧
      ((strlen ub.instanceName : Int) < maxNameLength →
        (rt.handlerAborts = false ∨ (strlen ub.blockName : Int) < maxNameLength) →
        Buf.firstBytes (GetUniformBuffer rt heap result bufferIndex blockName instanceName maxNameLength
          byteSize parameterCount).instanceName
          (strlen ub.instanceName + 1) = cstr ub.instanceName ++ [0])) ∧
    (∀ (bufferIndex parameterIndex : Int) (ub : Compiler.UniformBuffer)
        (p : Compiler.Parameter) (name : Buf)
        (type rows columns byteOffset arrayDimensions : Int),
      vectorAt refl.uniformBuffers bufferIndex = some ub →
      vectorAt ub.parameters parameterIndex = some p →
      (∀ i : Nat, maxNameLength ≤ (i : Int) →
        (GetParameter rt heap result bufferIndex parameterIndex name maxNameLength type rows
          columns byteOffset arrayDimensions).name i = name i) ∧
      ((GetParameter rt heap result bufferIndex parameterIndex name maxNameLength type rows
          columns byteOffset arrayDimensions).exit = Exit.returned ↔
        (rt.handlerAborts = false ∨ (strlen p.name : Int) < maxNameLength)) ∧
      ((strlen p.name : Int) < maxNameLength →
        Buf.firstBytes (GetParameter rt heap result bufferIndex parameterIndex name maxNameLength type rows
          columns byteOffset arrayDimensions).name
          (strlen p.name + 1) = cstr p.name ++ [0])) ∧
    (∀ (samplerIndex : Int) (s : Compiler.Sampler) (name originalName textureName : Buf)
        (type slot textureSlot : Int),
      vectorAt refl.samplers samplerIndex = some s →
      (∀ i : Nat, maxNameLength ≤ (i : Int) →
        (GetSampler rt heap result samplerIndex name originalName textureName maxNameLength
          type slot textureSlot).name i = name i ∧
        (GetSampler rt heap result samplerIndex name originalName textureName maxNameLength
          type slot textureSlot).originalName i = originalName i ∧
        (GetSampler rt heap result samplerIndex name originalName textureName maxNameLength
          type slot textureSlot).textureName i = textureName i) ∧
      ((GetSampler rt heap result samplerIndex name originalName textureName maxNameLength
          type slot textureSlot).exit = Exit.returned ↔
        (rt.handlerAborts = false ∨
          ((strlen s.name : Int) < maxNameLength ∧ (strlen s.originalName : Int) < maxNameLength ∧
            (strlen s.textureName : Int) < maxNameLength))) ∧
      ((strlen s.name : Int) < maxNameLength →
        Buf.firstBytes (GetSampler rt heap result samplerIndex name originalName textureName maxNameLength
          type slot textureSlot).name
          (strlen s.name + 1) = cstr s.name ++ [0]) ∧
      ((strlen s.originalName : Int) < maxNameLength →
        (rt.handlerAborts = false ∨ (strlen s.name : Int) < maxNameLength) →
        Buf.firstBytes (GetSampler rt heap result samplerIndex name originalName textureName maxNameLength
          type slot textureSlot).originalName
          (strlen s.originalName + 1) = cstr s.originalName ++ [0]) ∧
      ((strlen s.textureName : Int) < maxNameLength →
        (rt.handlerAborts = false ∨
          ((strlen s.name : Int) < maxNameLength ∧ (strlen s.originalName : Int) < maxNameLength)) →
        Buf.firstBytes (GetSampler rt heap result samplerIndex name originalName textureName maxNameLength
          type slot textureSlot).textureName
          (strlen s.textureName + 1) = cstr s.textureName ++ [0])) := by
  obtain ⟨n, rfl⟩ := Int.eq_ofNat_of_zero_le hmax
  simp only [Nat.cast_lt, Nat.cast_le]
  refine ⟨?_, ?_, ?_, ?_⟩
  · intro stageInputIndex si name location hsi
    rw [GetStageInput_eq rt heap result refl stageInputIndex si name n location hrefl hsi,
      toSizeT_natCast, stops_strcpy_s_eq]
    have fr := strcpy_s_frame rt name n si.name
    have g := fun h => (strcpy_s_fits rt name n si.name h).2
    rcases Bool.eq_false_or_eq_true rt.handlerAborts with ha | ha <;>
      by_cases f1 : strlen si.name < n <;> simp +contextual [ha, f1, fr, g]
  · intro bufferIndex ub blockName instanceName byteSize parameterCount hub
    rw [GetUniformBuffer_eq rt heap result refl bufferIndex ub blockName instanceName n
      byteSize parameterCount hrefl hub, toSizeT_natCast, stops_strcpy_s_eq,
      stops_strcpy_s_eq]
    have fr1 := strcpy_s_frame rt blockName n ub.blockName
    have fr2 := strcpy_s_frame rt instanceName n ub.instanceName
    have g1 := fun h => (strcpy_s_fits rt blockName n ub.blockName h).2
    have g2 := fun h => (strcpy_s_fits rt instanceName n ub.instanceName h).2
    rcases Bool.eq_false_or_eq_true rt.handlerAborts with ha | ha <;>
      by_cases f1 : strlen ub.blockName < n <;>
      by_cases f2 : strlen ub.instanceName < n <;>
      simp +contextual [ha, f1, f2, fr1, fr2, g1, g2]
  · intro bufferIndex parameterIndex ub p name type rows columns byteOffset arrayDimensions
      hub hp
    rw [GetParameter_eq rt heap result refl bufferIndex parameterIndex ub p name n
      type rows columns byteOffset arrayDimensions hrefl hub hp, toSizeT_natCast,
      stops_strcpy_s_eq]
    have fr := strcpy_s_frame rt name n p.name
    have g := fun h => (strcpy_s_fits rt name n p.name h).2
    rcases Bool.eq_false_or_eq_true rt.handlerAborts with ha | ha <;>
      by_cases f1 : strlen p.name < n <;> simp +contextual [ha, f1, fr, g]
  · intro samplerIndex s name originalName textureName type slot textureSlot hs
    rw [GetSampler_eq rt heap result refl samplerIndex s name originalName textureName
      n type slot textureSlot hrefl hs, toSizeT_natCast, stops_strcpy_s_eq,
      stops_strcpy_s_eq, stops_strcpy_s_eq]
    have fr1 := strcpy_s_frame rt name n s.name
    have fr2 := strcpy_s_frame rt originalName n s.originalName
    have fr3 := strcpy_s_frame rt textureName n s.textureName
    have g1 := fun h => (strcpy_s_fits rt name n s.name h).2
    have g2 := fun h => (strcpy_s_fits rt originalName n s.originalName h).2
    have g3 := fun h => (strcpy_s_fits rt textureName n s.textureName h).2
    rcases Bool.eq_false_or_eq_true rt.handlerAborts with ha | ha <;>
      by_cases f1 : strlen s.name < n <;>
      by_cases f2 : strlen s.originalName < n <;>
      by_cases f3 : strlen s.textureName < n <;>
      simp +contextual [ha, f1, f2, f3, fr1, fr2, fr3, g1, g2, g3]

/-- Witness of C5: with a maximum of 8 every name of the sample sampler fits,
so also under a terminating handler the call returns and the second and third
buffer receive "s0" and "tex" with their terminators; and the stage input "pos"
copied with a maximum of 2 (too short) leaves offset 2 of the buffer
untouched. -/
theorem name_copies_bounded_witness :
    reflectionHeap.reflectionAt (GetReflection (some reflectionResult))
      = some sampleReflection ∧
    (0 : Int) ≤ 8 ∧
    (GetSampler abortingRuntime reflectionHeap (some reflectionResult) 0 freshBuf freshBuf
      freshBuf 8 0 0 0).exit = Exit.returned ∧
    Buf.firstBytes
      (GetSampler abortingRuntime reflectionHeap (some reflectionResult) 0 freshBuf freshBuf
        freshBuf 8 0 0 0).originalName
      (strlen sampleSampler.originalName + 1) = cstr sampleSampler.originalName ++ [0] ∧
    Buf.firstBytes
      (GetSampler abortingRuntime reflectionHeap (some reflectionResult) 0 freshBuf freshBuf
        freshBuf 8 0 0 0).textureName
      (strlen sampleSampler.textureName + 1) = cstr sampleSampler.textureName ++ [0] ∧
    (GetStageInput abortingRuntime reflectionHeap (some reflectionResult) 0 freshBuf 2 0).name 2
      = freshBuf 2 :=
  ⟨rfl, by decide,
    ((name_copies_bounded abortingRuntime reflectionHeap (some reflectionResult)
      sampleReflection 8 rfl (by decide)).2.2.2 0 sampleSampler freshBuf freshBuf freshBuf
      0 0 0 rfl).2.1.mpr (Or.inr ⟨by decide, by decide, by decide⟩),
    ((name_copies_bounded abortingRuntime reflectionHeap (some reflectionResult)
      sampleReflection 8 rfl (by decide)).2.2.2 0 sampleSampler freshBuf freshBuf freshBuf
      0 0 0 rfl).2.2.2.1 (by decide) (Or.inr (by decide)),
    ((name_copies_bounded abortingRuntime reflectionHeap (some reflectionResult)
      sampleReflection 8 rfl (by decide)).2.2.2 0 sampleSampler freshBuf freshBuf freshBuf
      0 0 0 rfl).2.2.2.2 (by decide) (Or.inr ⟨by decide, by decide⟩),
    ((name_copies_bounded abortingRuntime reflectionHeap (some reflectionResult)
      sampleReflection 2 rfl (by decide)).1 0 sampleStageInput freshBuf 0 rfl).1 2
      (by decide)⟩

/-- C5 (counterexample): `GetStageInput` called with `maxNameLength = -1` on
the stage input "pos".  The negative `int` converts to a huge `rsize_t`, the
call returns and the bytes "pos" and the terminator are written at offsets
0..3 of the buffer, so bytes at offsets not below `maxNameLength` are
changed.  Further, `GetSampler` with a maximum of 4 under a terminating
handler: the first name "samp" does not fit, the process ends at the first
copy, and the second buffer does not receive "s0" although that name with its
terminator fits. -/
theorem name_copy_negative_length_counterexample :
    (GetStageInput sampleRuntime reflectionHeap (some reflectionResult) 0 freshBuf (-1) 0).exit
      = Exit.returned ∧
    Buf.firstBytes
      (GetStageInput sampleRuntime reflectionHeap (some reflectionResult) 0 freshBuf
        (-1) 0).name 4 = [112, 111, 115, 0] ∧
    Buf.firstBytes freshBuf 4 = [204, 204, 204, 204] ∧
    ¬ (∀ i : Nat, (-1 : Int) ≤ (i : Int) →
      (GetStageInput sampleRuntime reflectionHeap (some reflectionResult) 0 freshBuf
        (-1) 0).name i = freshBuf i) ∧
    (strlen sampleSampler.originalName : Int) + 1 ≤ 4 ∧
    (GetSampler abortingRuntime reflectionHeap (some reflectionResult) 0 freshBuf freshBuf
      freshBuf 4 0 0 0).exit = Exit.aborted ∧
    Buf.firstBytes
      (GetSampler abortingRuntime reflectionHeap (some reflectionResult) 0 freshBuf freshBuf
        freshBuf 4 0 0 0).originalName 3 = [204, 204, 204] := by
  refine ⟨by decide, by decide, by decide, ?_, by decide, by decide, by decide⟩
  intro h
  exact absurd (h 0 (by decide)) (by decide)

/-- C9 (as amended): for a result whose reflection pointer designates a
reflection result, `GetUniformBufferCount` returns the number of uniform
buffers converted to `int`, which is that number when it is below 2^31; for
every `bufferIndex` with `0 ≤ bufferIndex` below the returned count the
element access succeeds and `GetUniformBuffer` (name buffers large enough)
returns with the block name, instance name and byte size of that buffer and a
`parameterCount` that is the length of its parameter sequence converted to
`int` (that length when it is below 2^31); and for every `parameterIndex` with
`0 ≤ parameterIndex` below that parameter count the element access succeeds
and `GetParameter` (name buffer large enough) returns with the name, type tag,
rows, columns, byte offset and array-dimension count of that parameter. -/
theorem uniform_buffer_projection (rt : CRuntime) (heap : Heap) (result : ResultDescription)
    (refl : Compiler.ReflectionDesc)
    (hrefl : heap.reflectionAt result.reflection = some refl) :
    GetUniformBufferCount heap (some result) = some (toInt refl.uniformBuffers.length) ∧
    (refl.uniformBuffers.length < 2 ^ 31 →
      GetUniformBufferCount heap (some result) = some (refl.uniformBuffers.length : Int)) ∧
    (∀ bufferIndex : Int, 0 ≤ bufferIndex → bufferIndex < toInt refl.uniformBuffers.length →
      ∃ ub, refl.uniformBuffers[bufferIndex.toNat]? = some ub ∧
        (∀ (blockName instanceName : Buf) (maxNameLength byteSize parameterCount : Int),
          (strlen ub.blockName : Int) < maxNameLength →
          (strlen ub.instanceName : Int) < maxNameLength →
          (GetUniformBuffer rt heap (some result) bufferIndex blockName instanceName
            maxNameLength byteSize parameterCount).exit = Exit.returned ∧
          Buf.firstBytes
            (GetUniformBuffer rt heap (some result) bufferIndex blockName instanceName
              maxNameLength byteSize parameterCount).blockName
            (strlen ub.blockName + 1) = cstr ub.blockName ++ [0] ∧
          Buf.firstBytes
            (GetUniformBuffer rt heap (some result) bufferIndex blockName instanceName
              maxNameLength byteSize parameterCount).instanceName
            (strlen ub.instanceName + 1) = cstr ub.instanceName ++ [0] ∧
          (GetUniformBuffer rt heap (some result) bufferIndex blockName instanceName
            maxNameLength byteSize parameterCount).byteSize = ub.byteSize ∧
          (GetUniformBuffer rt heap (some result) bufferIndex blockName instanceName
            maxNameLength byteSize parameterCount).parameterCount
            = toInt ub.parameters.length ∧
          (ub.parameters.length < 2 ^ 31 →
            (GetUniformBuffer rt heap (some result) bufferIndex blockName instanceName
              maxNameLength byteSize parameterCount).parameterCount
              = (ub.parameters.length : Int))) ∧
        (∀ parameterIndex : Int, 0 ≤ parameterIndex →
          parameterIndex < toInt ub.parameters.length →
          ∃ p, ub.parameters[parameterIndex.toNat]? = some p ∧
            ∀ (name : Buf) (maxNameLength type rows columns byteOffset arrayDimensions : Int),
              (strlen p.name : Int) < maxNameLength →
              (GetParameter rt heap (some result) bufferIndex parameterIndex name
                maxNameLength type rows columns byteOffset arrayDimensions).exit
                = Exit.returned ∧
              Buf.firstBytes
                (GetParameter rt heap (some result) bufferIndex parameterIndex name
                  maxNameLength type rows columns byteOffset arrayDimensions).name
                (strlen p.name + 1) = cstr p.name ++ [0] ∧
              (GetParameter rt heap (some result) bufferIndex parameterIndex name
                maxNameLength type rows columns byteOffset arrayDimensions).type = p.type ∧
              (GetParameter rt heap (some result) bufferIndex parameterIndex name
                maxNameLength type rows columns byteOffset arrayDimensions).rows = p.rows ∧
              (GetParameter rt heap (some result) bufferIndex parameterIndex name
                maxNameLength type rows columns byteOffset arrayDimensions).columns
                = p.columns ∧
              (GetParameter rt heap (some result) bufferIndex parameterIndex name
                maxNameLength type rows columns byteOffset arrayDimensions).byteOffset
                = p.byteOffset ∧
              (GetParameter rt heap (some result) bufferIndex parameterIndex name
                maxNameLength type rows columns byteOffset arrayDimensions).arrayDimensions
                = p.arrayDimensions)) := by
  have hcount := GetUniformBufferCount_eq heap result refl hrefl
  have hrefl1 : heap.reflectionAt (GetReflection (some result)) = some refl := hrefl
  refine ⟨hcount, ?_, ?_⟩
  · intro hsmall
    rw [hcount, toInt_of_lt hsmall]
  · intro bufferIndex h0 h1
    obtain ⟨ub, hub, hget⟩ :=
      vectorAt_of_lt refl.uniformBuffers bufferIndex h0 (lt_length_of_lt_toInt h1)
    refine ⟨ub, hget, ?_, ?_⟩
    · intro blockName instanceName maxNameLength byteSize parameterCount hb hi
      have c1 := strcpy_s_fits rt blockName (toSizeT maxNameLength) ub.blockName
        (toSizeT_gt_of_lt hb)
      have c2 := strcpy_s_fits rt instanceName (toSizeT maxNameLength) ub.instanceName
        (toSizeT_gt_of_lt hi)
      rw [GetUniformBuffer_eq rt heap (some result) refl bufferIndex ub blockName instanceName
        maxNameLength byteSize parameterCount hrefl1 hub,
        strcpy_s_fits_continues rt blockName (toSizeT maxNameLength) ub.blockName
          (toSizeT_gt_of_lt hb),
        strcpy_s_fits_continues rt instanceName (toSizeT maxNameLength) ub.instanceName
          (toSizeT_gt_of_lt hi)]
      refine ⟨rfl, c1.2, c2.2, rfl, rfl, ?_⟩
      intro hsmall
      exact toInt_of_lt hsmall
    · intro parameterIndex p0 p1
      obtain ⟨p, hp, hpget⟩ :=
        vectorAt_of_lt ub.parameters parameterIndex p0 (lt_length_of_lt_toInt p1)
      refine ⟨p, hpget, ?_⟩
      intro name maxNameLength type rows columns byteOffset arrayDimensions hn
      have c := strcpy_s_fits rt name (toSizeT maxNameLength) p.name (toSizeT_gt_of_lt hn)
      rw [GetParameter_eq rt heap (some result) refl bufferIndex parameterIndex ub p name
        maxNameLength type rows columns byteOffset arrayDimensions hrefl1 hub hp,
        strcpy_s_fits_continues rt name (toSizeT maxNameLength) p.name (toSizeT_gt_of_lt hn)]
      exact ⟨rfl, c.2, rfl, rfl, rfl, rfl, rfl⟩

/-- Witness of C9: the sample reflection has one uniform buffer, and the count
query reports 1. -/
theorem uniform_buffer_projection_witness :
    reflectionHeap.reflectionAt reflectionResult.reflection = some sampleReflection ∧
    sampleReflection.uniformBuffers.length < 2 ^ 31 ∧
    GetUniformBufferCount reflectionHeap (some reflectionResult)
      = some (sampleReflection.uniformBuffers.length : Int) :=
  ⟨rfl, by decide,
    (uniform_buffer_projection sampleRuntime reflectionHeap reflectionResult sampleReflection
      rfl).2.1 (by decide)⟩

/-- C9 (counterexample): a reflection result with 2^31 uniform buffers.  The
count is converted with `(int)`, so `GetUniformBufferCount` returns
-2147483648, not the number of uniform buffers. -/
theorem uniform_buffer_count_counterexample :
    crowdedHeap.reflectionAt reflectionResult.reflection = some crowdedReflection ∧
    crowdedReflection.uniformBuffers.length = 2147483648 ∧
    GetUniformBufferCount crowdedHeap (some reflectionResult) = some (-2147483648) ∧
    GetUniformBufferCount crowdedHeap (some reflectionResult)
      ≠ some (crowdedReflection.uniformBuffers.length : Int) := by
  have hrefl : crowdedHeap.reflectionAt reflectionResult.reflection = some crowdedReflection :=
    rfl
  have hlen : crowdedReflection.uniformBuffers.length = 2147483648 :=
    List.length_replicate 2147483648 _
  have hcount : GetUniformBufferCount crowdedHeap (some reflectionResult)
      = some (-2147483648) := by
    rw [GetUniformBufferCount_eq crowdedHeap reflectionResult crowdedReflection hrefl, hlen]
    norm_num [toInt]
  refine ⟨hrefl, hlen, hcount, ?_⟩
  rw [hcount, hlen]
  norm_num

end ShaderConductor
